import Mathlib

/-!
XPUTracer: lifecycle state machine, record classifier and drain loop.

A shallow embedding of `paddle/fluid/platform/profiler/xpu_tracer.cc` and theorems about it.
The definitions of `paddle.platform` are the build with `PADDLE_WITH_XPTI` defined; those of
`paddle.platform.NoXPTI` are the member functions with the conditional blocks left out.

Conventions of the embedding.

* The tracer object is a value of `XPUTracer`; every member function takes the object and
  returns the object it leaves behind, together with how the call ended (`Exit`) and the
  external calls it made, in order (`Call`).
* The vendor library (`phi::dynload::xpti*`), the clock (`phi::PosixInNsec`) and the collector
  (`TraceEventCollector`) are not part of the translated file. The status each vendor call
  returns and the value the clock returns are arguments of the operation that makes the call;
  the successive answers of `xptiActivityGetNextRecord` are a list of `NextRecordReply`, one
  per call; the collector is represented by the append calls made on it.
* Timestamps and identifiers are unsigned machine integers that the code only copies and
  compares (`<` against `uint64_t start_ns`); they are natural numbers here and no arithmetic
  is performed on them. The member types of the vendor records and of the trace events are
  declared in headers outside the translated file, so an assignment between members is taken
  to preserve the value.
-/

namespace paddle.platform

/-! ## Data model -/

/-- Tracer lifecycle states (`TracerState`). -/
inductive TracerState
  | UNINITED
  | READY
  | STARTED
  | STOPPED
  deriving DecidableEq, Repr

/-- Status codes of the vendor library. The file distinguishes `XPTI_SUCCESS`,
`XPTI_INVALID_DATA` (the data queue is empty) and every other value. -/
inductive XPTIResult
  | XPTI_SUCCESS
  | XPTI_INVALID_DATA
  | XPTI_OTHER (code : Nat)
  deriving DecidableEq, Repr

/-- The `type` tag of a vendor record, as the `switch` of `CollectTraceData` reads it. -/
inductive XPTIEventType
  | XPTI_EVENT_TYPE_API
  | XPTI_EVENT_TYPE_KERNEL
  | XPTI_EVENT_TYPE_MEMCPY
  | XPTI_EVENT_TYPE_WAIT
  | XPTI_EVENT_TYPE_OTHER (tag : Nat)
  deriving DecidableEq, Repr

/-- Fields of an `XPTIEventAPI` that the file reads (`end_` is the member `end`). -/
structure XPTIEventAPI where
  name : String
  start : Nat
  end_ : Nat
  pid : Nat
  tid : Nat
  token : Nat
  deriving DecidableEq, Repr

/-- Fields of an `XPTIEventKernel` that the file reads. -/
structure XPTIEventKernel where
  name : String
  start : Nat
  end_ : Nat
  device_id : Nat
  stream_id : Nat
  token : Nat
  deriving DecidableEq, Repr

/-- Fields of an `XPTIEventMem` that the file reads. -/
structure XPTIEventMem where
  name : String
  start : Nat
  end_ : Nat
  pid : Nat
  tid : Nat
  deriving DecidableEq, Repr

/-- Fields of an `XPTIEventWait` that the file reads. -/
structure XPTIEventWait where
  name : String
  start : Nat
  end_ : Nat
  pid : Nat
  tid : Nat
  deriving DecidableEq, Repr

/-- The dynamic type of the object behind an `XPTIEvent*`: one of the four subclasses the
file downcasts to, or anything else (of which only the base-class `name` is read). -/
inductive XPTIEventObject
  | api (e : XPTIEventAPI)
  | kernel (e : XPTIEventKernel)
  | mem (e : XPTIEventMem)
  | wait (e : XPTIEventWait)
  | base (name : String)
  deriving DecidableEq, Repr

/-- A vendor record: the `type` tag together with the object it is carried by. The tag and the
dynamic type are independent data; the code checks both. -/
structure XPTIEvent where
  type : XPTIEventType
  object : XPTIEventObject
  deriving DecidableEq, Repr

/-- The members of `RuntimeTraceEvent` that the file assigns. `correlation_id` is `none` when
the code leaves the member of the default-constructed event unassigned. -/
structure RuntimeTraceEvent where
  name : String
  start_ns : Nat
  end_ns : Nat
  process_id : Nat
  thread_id : Nat
  correlation_id : Option Nat
  deriving DecidableEq, Repr

/-- Values of `TracerEventType`; the file uses `Kernel` only. -/
inductive TracerEventType
  | Kernel
  | Other (tag : Nat)
  deriving DecidableEq, Repr

/-- The members of `DeviceTraceEvent` that the file assigns. -/
structure DeviceTraceEvent where
  name : String
  type : TracerEventType
  start_ns : Nat
  end_ns : Nat
  device_id : Nat
  stream_id : Nat
  correlation_id : Nat
  deriving DecidableEq, Repr

/-- A call made on the `TraceEventCollector*` argument. The collector itself is represented by
the sequence of these calls it receives. -/
inductive CollectorCall
  | AddRuntimeEvent (event : RuntimeTraceEvent)
  | AddDeviceEvent (event : DeviceTraceEvent)
  deriving DecidableEq, Repr

/-- External calls made by the tracer, in the order the trace lists them. -/
inductive Call
  | xptiActivityEnable
  | xptiStartTracing
  | xptiStopTracing
  | xptiActivityDisable
  | xptiActivityFlushAll
  | xptiActivityGetNextRecord
  | xptiActivityPopRecord
  | PosixInNsec
  | collector (c : CollectorCall)
  deriving DecidableEq, Repr

/-- How a member function ends.
* `returned`: it returns normally.
* `PreconditionNotMet`: `PADDLE_ENFORCE_EQ` throws `common::errors::PreconditionNotMet`.
* `exited status`: `XPTI_CALL` logs the failing status and calls `exit(-1)`.
* `awaiting`: the `while (true)` loop is about to call `xptiActivityGetNextRecord` once more
  than the supplied list of replies answers; nothing is known about the rest of the run. -/
inductive Exit
  | returned
  | PreconditionNotMet
  | exited (status : XPTIResult)
  | awaiting
  deriving DecidableEq, Repr

/-- The tracer object: the members `state_` and `tracing_start_ns_`. -/
structure XPUTracer where
  state_ : TracerState
  tracing_start_ns_ : Nat
  deriving DecidableEq, Repr

/-- What one member-function call does: how it ends, the object afterwards, the external calls
made in order. -/
structure Effect where
  exit : Exit
  tracer : XPUTracer
  calls : List Call
  deriving DecidableEq, Repr

/-- One answer of `xptiActivityGetNextRecord(&record)`: the status returned and the record
`record` points to afterwards (read by the code only when the status is `XPTI_SUCCESS`). -/
structure NextRecordReply where
  status : XPTIResult
  record : XPTIEvent
  deriving DecidableEq, Repr

/-- Result of the drain loop: how it ends, the external calls made, the replies not consumed. -/
structure Drain where
  exit : Exit
  calls : List Call
  feed : List NextRecordReply
  deriving DecidableEq, Repr

/-- Result of `CollectTraceData`: its effect and the replies of the feed it did not consume. -/
structure Collected extends Effect where
  feed : List NextRecordReply
  deriving DecidableEq, Repr

/-! ## The code -/

open TracerState XPTIResult XPTIEventType

/-- The macro `XPTI_CALL(call)`: `some (exited status)` when the status differs from
`XPTI_SUCCESS` (log and `exit(-1)`), `none` when execution continues. -/
def XPTI_CALL (_status : XPTIResult) : Option Exit :=
  if _status ≠ XPTI_SUCCESS then some (Exit.exited _status) else none

/-- `XPUTracer::PrepareTracing`; `enable` is what `xptiActivityEnable()` returns. -/
def PrepareTracing (enable : XPTIResult) (t : XPUTracer) : Effect :=
  if decide (t.state_ = UNINITED ∨ t.state_ = STOPPED) = true then
    match XPTI_CALL enable with
    | some e => ⟨e, t, [Call.xptiActivityEnable]⟩
    | none => ⟨Exit.returned, { t with state_ := READY }, [Call.xptiActivityEnable]⟩
  else ⟨Exit.PreconditionNotMet, t, []⟩

/-- `XPUTracer::StartTracing`; `start` is what `xptiStartTracing()` returns and `now` what
`phi::PosixInNsec()` returns. -/
def StartTracing (start : XPTIResult) (now : Nat) (t : XPUTracer) : Effect :=
  if decide (t.state_ = READY) = true then
    match XPTI_CALL start with
    | some e => ⟨e, t, [Call.xptiStartTracing]⟩
    | none =>
      ⟨Exit.returned, { t with tracing_start_ns_ := now, state_ := STARTED },
        [Call.xptiStartTracing, Call.PosixInNsec]⟩
  else ⟨Exit.PreconditionNotMet, t, []⟩

/-- `XPUTracer::StopTracing`; `stop` and `disable` are what `xptiStopTracing()` and
`xptiActivityDisable()` return. -/
def StopTracing (stop disable : XPTIResult) (t : XPUTracer) : Effect :=
  if t.state_ = STARTED then
    match XPTI_CALL stop with
    | some e => ⟨e, t, [Call.xptiStopTracing]⟩
    | none =>
      match XPTI_CALL disable with
      | some e => ⟨e, t, [Call.xptiStopTracing, Call.xptiActivityDisable]⟩
      | none =>
        ⟨Exit.returned, { t with state_ := STOPPED },
          [Call.xptiStopTracing, Call.xptiActivityDisable]⟩
  else ⟨Exit.PreconditionNotMet, t, []⟩

/-- The downcast `dynamic_cast<const XPTIEventAPI*>(xpti_event)`; `none` is `nullptr`. -/
def dynamic_cast_XPTIEventAPI (xpti_event : XPTIEvent) : Option XPTIEventAPI :=
  match xpti_event.object with
  | XPTIEventObject.api e => some e
  | _ => none

/-- The downcast `dynamic_cast<const XPTIEventKernel*>(xpti_event)`. -/
def dynamic_cast_XPTIEventKernel (xpti_event : XPTIEvent) : Option XPTIEventKernel :=
  match xpti_event.object with
  | XPTIEventObject.kernel e => some e
  | _ => none

/-- The downcast `dynamic_cast<const XPTIEventWait*>(xpti_event)`. -/
def dynamic_cast_XPTIEventWait (xpti_event : XPTIEvent) : Option XPTIEventWait :=
  match xpti_event.object with
  | XPTIEventObject.wait e => some e
  | _ => none

/-- The downcast `dynamic_cast<const XPTIEventMem*>(xpti_event)`. -/
def dynamic_cast_XPTIEventMem (xpti_event : XPTIEvent) : Option XPTIEventMem :=
  match xpti_event.object with
  | XPTIEventObject.mem e => some e
  | _ => none

/-- `AddApiRecord`: the calls it makes on `collector`. -/
def AddApiRecord (xpti_event : XPTIEvent) (start_ns : Nat) : List CollectorCall :=
  match dynamic_cast_XPTIEventAPI xpti_event with
  | none => []
  | some api =>
    if api.start < start_ns then []
    else
      [CollectorCall.AddRuntimeEvent
        { name := api.name, start_ns := api.start, end_ns := api.end_,
          process_id := api.pid, thread_id := api.tid, correlation_id := some api.token }]

/-- `AddKernelRecord`: the calls it makes on `collector`. -/
def AddKernelRecord (xpti_event : XPTIEvent) (start_ns : Nat) : List CollectorCall :=
  match dynamic_cast_XPTIEventKernel xpti_event with
  | none => []
  | some kernel =>
    if kernel.start < start_ns then []
    else
      [CollectorCall.AddDeviceEvent
        { name := kernel.name, type := TracerEventType.Kernel, start_ns := kernel.start,
          end_ns := kernel.end_, device_id := kernel.device_id,
          stream_id := kernel.stream_id, correlation_id := kernel.token }]

/-- `AddWaitRecord`: the calls it makes on `collector`. -/
def AddWaitRecord (xpti_event : XPTIEvent) (start_ns : Nat) : List CollectorCall :=
  match dynamic_cast_XPTIEventWait xpti_event with
  | none => []
  | some wait =>
    if wait.start < start_ns then []
    else
      [CollectorCall.AddRuntimeEvent
        { name := wait.name, start_ns := wait.start, end_ns := wait.end_,
          process_id := wait.pid, thread_id := wait.tid, correlation_id := none }]

/-- `AddMemcpyRecord`: the calls it makes on `collector`. -/
def AddMemcpyRecord (xpti_event : XPTIEvent) (start_ns : Nat) : List CollectorCall :=
  match dynamic_cast_XPTIEventMem xpti_event with
  | none => []
  | some memcpy =>
    if memcpy.start < start_ns then []
    else
      [CollectorCall.AddRuntimeEvent
        { name := memcpy.name, start_ns := memcpy.start, end_ns := memcpy.end_,
          process_id := memcpy.pid, thread_id := memcpy.tid, correlation_id := none }]

/-- The `switch (record->type)` of `CollectTraceData`: the collector calls one retrieved
record leads to. -/
def switchRecord (record : XPTIEvent) (tracing_start_ns_ : Nat) : List CollectorCall :=
  match record.type with
  | XPTI_EVENT_TYPE_API => AddApiRecord record tracing_start_ns_
  | XPTI_EVENT_TYPE_KERNEL => AddKernelRecord record tracing_start_ns_
  | XPTI_EVENT_TYPE_MEMCPY => AddMemcpyRecord record tracing_start_ns_
  | XPTI_EVENT_TYPE_WAIT => AddWaitRecord record tracing_start_ns_
  | XPTI_EVENT_TYPE_OTHER _ => []

/-- The `while (true)` loop of `CollectTraceData`, run against the successive replies of
`xptiActivityGetNextRecord`. Each iteration consumes one reply. -/
def drainLoop (tracing_start_ns_ : Nat) : List NextRecordReply → Drain
  | [] => ⟨Exit.awaiting, [], []⟩
  | reply :: feed =>
    if reply.status = XPTI_SUCCESS then
      let d := drainLoop tracing_start_ns_ feed
      ⟨d.exit,
        Call.xptiActivityGetNextRecord ::
          ((switchRecord reply.record tracing_start_ns_).map Call.collector ++
            Call.xptiActivityPopRecord :: d.calls),
        d.feed⟩
    else if reply.status = XPTI_INVALID_DATA then
      ⟨Exit.returned, [Call.xptiActivityGetNextRecord], feed⟩
    else
      match XPTI_CALL reply.status with
      | some e => ⟨e, [Call.xptiActivityGetNextRecord], feed⟩
      | none =>
        let d := drainLoop tracing_start_ns_ feed
        ⟨d.exit, Call.xptiActivityGetNextRecord :: d.calls, d.feed⟩

/-- `XPUTracer::CollectTraceData`; `flush` is what `xptiActivityFlushAll()` returns and `feed`
the successive replies of `xptiActivityGetNextRecord`. -/
def CollectTraceData (flush : XPTIResult) (feed : List NextRecordReply) (t : XPUTracer) :
    Collected :=
  if t.state_ = STOPPED then
    match XPTI_CALL flush with
    | some e => ⟨⟨e, t, [Call.xptiActivityFlushAll]⟩, feed⟩
    | none =>
      let d := drainLoop t.tracing_start_ns_ feed
      ⟨⟨d.exit, t, Call.xptiActivityFlushAll :: d.calls⟩, d.feed⟩
  else ⟨⟨Exit.PreconditionNotMet, t, []⟩, feed⟩

/-! ## Sequences of lifecycle calls -/

/-- One lifecycle call (`PrepareTracing`, `StartTracing`, `StopTracing`, `CollectTraceData`)
together with the answers the environment gives during it. -/
inductive Op
  | prepare (enable : XPTIResult)
  | start (start : XPTIResult) (now : Nat)
  | stop (stop disable : XPTIResult)
  | collect (flush : XPTIResult) (feed : List NextRecordReply)
  deriving DecidableEq, Repr

/-- Perform one lifecycle call on the tracer. -/
def Op.apply : Op → XPUTracer → Effect
  | Op.prepare r, t => PrepareTracing r t
  | Op.start r now, t => StartTracing r now t
  | Op.stop r1 r2, t => StopTracing r1 r2 t
  | Op.collect r feed, t => (CollectTraceData r feed t).toEffect

/-- Whether the caller can make a further call after this one: it returned, or it threw an
exception the caller may catch. After `exit(-1)` there is no process left. -/
def Exit.continues : Exit → Bool
  | Exit.returned => true
  | Exit.PreconditionNotMet => true
  | Exit.exited _ => false
  | Exit.awaiting => false

/-- Perform the calls one after the other on the same tracer object, as far as the process
gets; the result lists the effect of every call made. -/
def run : List Op → XPUTracer → List Effect
  | [], _ => []
  | op :: ops, t =>
    let e := op.apply t
    e :: (if e.exit.continues then run ops e.tracer else [])

/-- The collector calls among the external calls of a trace, in order: what the collector
receives. -/
def appended (calls : List Call) : List CollectorCall :=
  calls.filterMap fun c =>
    match c with
    | Call.collector a => some a
    | _ => none

/-- The reply `XPTI_SUCCESS` carrying `record`. -/
def recordReply (record : XPTIEvent) : NextRecordReply := ⟨XPTI_SUCCESS, record⟩

/-- The reply `XPTI_INVALID_DATA` (queue empty); `record` is what the pointer still holds. -/
def emptyReply (record : XPTIEvent) : NextRecordReply := ⟨XPTI_INVALID_DATA, record⟩

/-- A feed that yields the given records and then reports empty. -/
def feedOf (records : List XPTIEvent) (last : XPTIEvent) : List NextRecordReply :=
  records.map recordReply ++ [emptyReply last]

/-! ## The specification's vocabulary -/

/-- The valid set of each lifecycle operation, as the specification lists it. -/
def Op.validStates : Op → List TracerState
  | Op.prepare _ => [UNINITED, STOPPED]
  | Op.start _ _ => [READY]
  | Op.stop _ _ => [STARTED]
  | Op.collect _ _ => [STOPPED]

/-- The state the specification gives as the successor of a successful operation. -/
def Op.nextState : Op → TracerState
  | Op.prepare _ => READY
  | Op.start _ _ => STARTED
  | Op.stop _ _ => STOPPED
  | Op.collect _ _ => STOPPED

/-- One measured session of the specification's cycle: the clock reading at start, and, when
the caller collects, the records the feed yields before it reports empty. -/
structure Cycle where
  now : Nat
  collect : Option (List XPTIEvent × XPTIEvent)
  deriving DecidableEq, Repr

/-- The calls of one cycle, prepare, start, stop, (collect), with every vendor call
succeeding. -/
def Cycle.ops (c : Cycle) : List Op :=
  [Op.prepare XPTI_SUCCESS, Op.start XPTI_SUCCESS c.now,
    Op.stop XPTI_SUCCESS XPTI_SUCCESS] ++
  match c.collect with
  | none => []
  | some (records, last) => [Op.collect XPTI_SUCCESS (feedOf records last)]

/-- The calls of a sequence of cycles. -/
def cyclesOps : List Cycle → List Op
  | [] => []
  | c :: cs => c.ops ++ cyclesOps cs

/-- The states a run of lifecycle calls passes through when every call succeeds as the
specification says. -/
def specStates (ops : List Op) : List TracerState := ops.map Op.nextState

/-- The replies answered `XPTI_SUCCESS` before the first reply with another status: the
records the loop retrieves. -/
def retrieved (feed : List NextRecordReply) : List NextRecordReply :=
  feed.takeWhile fun reply => decide (reply.status = XPTI_SUCCESS)

/-- The first status other than `XPTI_SUCCESS` among the replies of record retrieval, when the
feed holds one. -/
def firstFailure (feed : List NextRecordReply) : Option XPTIResult :=
  (feed.find? fun reply => decide (reply.status ≠ XPTI_SUCCESS)).map NextRecordReply.status

/-- The outcome the specification gives the drain loop, from the first status other than
success: the empty status ends it successfully, any other status is fatal, and without such a
status the loop has not ended. -/
def specDrainExit : Option XPTIResult → Exit
  | none => Exit.awaiting
  | some XPTI_INVALID_DATA => Exit.returned
  | some s => Exit.exited s

/-- The external calls of the per-record step of the specification: pull the record, forward
what it maps to, release it. -/
def iteration (tracing_start_ns_ : Nat) (record : XPTIEvent) : List Call :=
  Call.xptiActivityGetNextRecord ::
    ((switchRecord record tracing_start_ns_).map Call.collector ++ [Call.xptiActivityPopRecord])

/-- The replies a collect call consumed: the feed it was given without the replies left. -/
def consumed (feed : List NextRecordReply) (c : Collected) : List NextRecordReply :=
  feed.take (feed.length - c.feed.length)

/-- The four kinds of record the specification recognizes. -/
inductive RecordKind
  | API
  | Kernel
  | Memcpy
  | Wait
  deriving DecidableEq, Repr

/-- The kind of a record in the specification's sense: a record is of a recognized kind when
its tag names that kind and the object it carries is of that kind. -/
def specKind (r : XPTIEvent) : Option RecordKind :=
  match r.type, r.object with
  | XPTI_EVENT_TYPE_API, XPTIEventObject.api _ => some RecordKind.API
  | XPTI_EVENT_TYPE_KERNEL, XPTIEventObject.kernel _ => some RecordKind.Kernel
  | XPTI_EVENT_TYPE_MEMCPY, XPTIEventObject.mem _ => some RecordKind.Memcpy
  | XPTI_EVENT_TYPE_WAIT, XPTIEventObject.wait _ => some RecordKind.Wait
  | _, _ => none

/-- The start time a record reports. -/
def specStart : XPTIEventObject → Option Nat
  | XPTIEventObject.api e => some e.start
  | XPTIEventObject.kernel e => some e.start
  | XPTIEventObject.mem e => some e.start
  | XPTIEventObject.wait e => some e.start
  | XPTIEventObject.base _ => none

/-- The normalized image of a record, by the table of the specification: API gives a runtime
event with correlation id the token, Kernel a device event of kind Kernel, Wait and Memcpy a
runtime event without correlation id. -/
def specImage : XPTIEventObject → Option CollectorCall
  | XPTIEventObject.api e =>
    some (CollectorCall.AddRuntimeEvent ⟨e.name, e.start, e.end_, e.pid, e.tid, some e.token⟩)
  | XPTIEventObject.kernel e =>
    some (CollectorCall.AddDeviceEvent
      ⟨e.name, TracerEventType.Kernel, e.start, e.end_, e.device_id, e.stream_id, e.token⟩)
  | XPTIEventObject.mem e =>
    some (CollectorCall.AddRuntimeEvent ⟨e.name, e.start, e.end_, e.pid, e.tid, none⟩)
  | XPTIEventObject.wait e =>
    some (CollectorCall.AddRuntimeEvent ⟨e.name, e.start, e.end_, e.pid, e.tid, none⟩)
  | XPTIEventObject.base _ => none

/-- The per-record classify-and-filter function of the specification: the normalized image of
a record of a recognized kind whose start time is at least the session start, nothing for any
other record. -/
def specEmit (sessionStartNanos : Nat) (r : XPTIEvent) : Option CollectorCall :=
  match specKind r, specStart r.object with
  | some _, some start => if sessionStartNanos ≤ start then specImage r.object else none
  | _, _ => none

/-! ## Clock, vendor flags, and the build without the vendor facility -/

/-- The run is made against `clock`, whose value at `k` is the reading during the `k`-th
lifecycle call: every `StartTracing` in `ops`, the first of which is call number `k`, is given
the reading of its own call as the value `phi::PosixInNsec()` returns. -/
def againstClock (clock : Nat → Nat) : Nat → List Op → Bool
  | _, [] => true
  | k, Op.start _ now :: ops => decide (now = clock k) && againstClock clock (k + 1) ops
  | k, _ :: ops => againstClock clock (k + 1) ops

/-- The tracer object after the calls of a run, `t` being the object before it. -/
def lastTracer : XPUTracer → List Effect → XPUTracer
  | t, [] => t
  | _, e :: es => lastTracer e.tracer es

/-- The vendor facility as two flags: activity enabled, capture running. -/
structure VendorFlags where
  activityEnabled : Bool
  captureRunning : Bool
  deriving DecidableEq, Repr

/-- The flags after the vendor receives a call: the four lifecycle calls toggle them, every
other call leaves them. -/
def VendorFlags.receive (v : VendorFlags) : Call → VendorFlags
  | Call.xptiActivityEnable => { v with activityEnabled := true }
  | Call.xptiActivityDisable => { v with activityEnabled := false }
  | Call.xptiStartTracing => { v with captureRunning := true }
  | Call.xptiStopTracing => { v with captureRunning := false }
  | _ => v

/-- The calls the vendor must never receive: enable while enabled, start while running or not
enabled, stop while not running, flush or record retrieval while capture is running. -/
def VendorFlags.misused (v : VendorFlags) : Call → Bool
  | Call.xptiActivityEnable => v.activityEnabled
  | Call.xptiStartTracing => v.captureRunning || !v.activityEnabled
  | Call.xptiStopTracing => !v.captureRunning
  | Call.xptiActivityFlushAll => v.captureRunning
  | Call.xptiActivityGetNextRecord => v.captureRunning
  | _ => false

/-- The flags that go with each tracer state: `UNINITED` and `STOPPED` disabled and not
running, `READY` enabled and not running, `STARTED` enabled and running. -/
def VendorFlags.agrees (v : VendorFlags) : TracerState → Bool
  | UNINITED => !v.activityEnabled && !v.captureRunning
  | STOPPED => !v.activityEnabled && !v.captureRunning
  | READY => v.activityEnabled && !v.captureRunning
  | STARTED => v.activityEnabled && v.captureRunning

/-- Let the vendor receive the calls of a trace in order: the flags afterwards, or `none` as
soon as a call arrives that it must never receive. -/
def VendorFlags.play (v : VendorFlags) : List Call → Option VendorFlags
  | [] => some v
  | c :: cs => if v.misused c then none else (v.receive c).play cs

/-- Every status-returning vendor call of the lifecycle call answers success (record retrieval
may answer anything). -/
def Op.vendorSucceeds : Op → Bool
  | Op.prepare r => decide (r = XPTI_SUCCESS)
  | Op.start r _ => decide (r = XPTI_SUCCESS)
  | Op.stop r1 r2 => decide (r1 = XPTI_SUCCESS) && decide (r2 = XPTI_SUCCESS)
  | Op.collect r _ => decide (r = XPTI_SUCCESS)

namespace NoXPTI

/-- `XPUTracer::PrepareTracing` with `PADDLE_WITH_XPTI` undefined. -/
def PrepareTracing (t : XPUTracer) : Effect :=
  if decide (t.state_ = UNINITED ∨ t.state_ = STOPPED) = true then
    ⟨Exit.returned, { t with state_ := READY }, []⟩
  else ⟨Exit.PreconditionNotMet, t, []⟩

/-- `XPUTracer::StartTracing` with `PADDLE_WITH_XPTI` undefined; `now` is what
`phi::PosixInNsec()` returns. -/
def StartTracing (now : Nat) (t : XPUTracer) : Effect :=
  if decide (t.state_ = READY) = true then
    ⟨Exit.returned, { t with tracing_start_ns_ := now, state_ := STARTED }, [Call.PosixInNsec]⟩
  else ⟨Exit.PreconditionNotMet, t, []⟩

/-- `XPUTracer::StopTracing` with `PADDLE_WITH_XPTI` undefined. -/
def StopTracing (t : XPUTracer) : Effect :=
  if t.state_ = STARTED then ⟨Exit.returned, { t with state_ := STOPPED }, []⟩
  else ⟨Exit.PreconditionNotMet, t, []⟩

/-- `XPUTracer::CollectTraceData` with `PADDLE_WITH_XPTI` undefined: the body is the state
check alone. -/
def CollectTraceData (t : XPUTracer) : Effect :=
  if t.state_ = STOPPED then ⟨Exit.returned, t, []⟩
  else ⟨Exit.PreconditionNotMet, t, []⟩

/-- One lifecycle call of the build without the vendor facility; the only answer of the
environment is the clock reading of `StartTracing`. -/
inductive Request
  | prepare
  | start (now : Nat)
  | stop
  | collect
  deriving DecidableEq, Repr

/-- Perform one lifecycle call on the tracer. -/
def Request.apply : Request → XPUTracer → Effect
  | Request.prepare, t => PrepareTracing t
  | Request.start now, t => StartTracing now t
  | Request.stop, t => StopTracing t
  | Request.collect, t => CollectTraceData t

/-- Perform the calls one after the other on the same tracer object. -/
def run : List Request → XPUTracer → List Effect
  | [], _ => []
  | q :: qs, t =>
    let e := q.apply t
    e :: (if e.exit.continues then run qs e.tracer else [])

/-- The same call made on the vendor-enabled tracer, with a vendor that always answers success
and a feed that is empty: the next replies of record retrieval are `XPTI_INVALID_DATA`. -/
def Request.withVendor (last : XPTIEvent) (more : Nat) : Request → Op
  | Request.prepare => Op.prepare XPTI_SUCCESS
  | Request.start now => Op.start XPTI_SUCCESS now
  | Request.stop => Op.stop XPTI_SUCCESS XPTI_SUCCESS
  | Request.collect => Op.collect XPTI_SUCCESS (List.replicate (more + 1) (emptyReply last))

end NoXPTI

/-- What an observer of successes, failures and tracer states sees of a run. -/
def observed (es : List Effect) : List (Exit × XPUTracer) :=
  es.map fun e => (e.exit, e.tracer)

/-! ## Theorems -/

theorem XPTI_CALL_success : XPTI_CALL XPTI_SUCCESS = none := rfl

theorem XPTI_CALL_failure (s : XPTIResult) (h : s ≠ XPTI_SUCCESS) :
    XPTI_CALL s = some (Exit.exited s) := by
  simp [XPTI_CALL, h]

/-- One iteration of the loop on a successfully retrieved record. -/
theorem drainLoop_record (ns : Nat) (r : XPTIEvent) (feed : List NextRecordReply) :
    drainLoop ns (recordReply r :: feed) =
      ⟨(drainLoop ns feed).exit,
        Call.xptiActivityGetNextRecord ::
          ((switchRecord r ns).map Call.collector ++
            Call.xptiActivityPopRecord :: (drainLoop ns feed).calls),
        (drainLoop ns feed).feed⟩ := by
  simp [drainLoop, recordReply]

/-- On a feed that yields `records` and then an empty status, the loop returns after one
iteration per record and one final pull. -/
theorem drainLoop_records (ns : Nat) (records : List XPTIEvent) (last : XPTIEvent)
    (rest : List NextRecordReply) :
    drainLoop ns (records.map recordReply ++ emptyReply last :: rest) =
      ⟨Exit.returned, records.flatMap (iteration ns) ++ [Call.xptiActivityGetNextRecord],
        rest⟩ := by
  induction records with
  | nil => simp [drainLoop, emptyReply]
  | cons r rs ih =>
    rw [List.map_cons, List.cons_append, drainLoop_record, ih]
    simp [iteration]

/-- A collect call in `STOPPED` on a feed that drains to empty returns and changes nothing in
the tracer. -/
theorem CollectTraceData_feedOf (ns : Nat) (records : List XPTIEvent) (last : XPTIEvent) :
    (CollectTraceData XPTI_SUCCESS (feedOf records last) ⟨STOPPED, ns⟩).exit = Exit.returned ∧
    (CollectTraceData XPTI_SUCCESS (feedOf records last) ⟨STOPPED, ns⟩).tracer =
      ⟨STOPPED, ns⟩ := by
  simp [CollectTraceData, XPTI_CALL_success, feedOf, drainLoop_records]

/-- One cycle from `UNINITED` or `STOPPED` runs through, and the run goes on from `STOPPED`. -/
theorem run_cycle (c : Cycle) (ops : List Op) (s : TracerState) (ns : Nat)
    (hs : s = UNINITED ∨ s = STOPPED) :
    (run (c.ops ++ ops) ⟨s, ns⟩).map Effect.exit =
      c.ops.map (fun _ => Exit.returned) ++ (run ops ⟨STOPPED, c.now⟩).map Effect.exit ∧
    (run (c.ops ++ ops) ⟨s, ns⟩).map (fun e => e.tracer.state_) =
      specStates c.ops ++ (run ops ⟨STOPPED, c.now⟩).map (fun e => e.tracer.state_) := by
  obtain ⟨now, collect⟩ := c
  have hc := CollectTraceData_feedOf now
  cases collect with
  | none =>
    rcases hs with rfl | rfl <;>
      simp [Cycle.ops, run, Op.apply, PrepareTracing, StartTracing, StopTracing,
        XPTI_CALL_success, Exit.continues, specStates, Op.nextState]
  | some p =>
    obtain ⟨records, last⟩ := p
    obtain ⟨h1, h2⟩ := hc records last
    rcases hs with rfl | rfl <;>
      simp [Cycle.ops, run, Op.apply, PrepareTracing, StartTracing, StopTracing,
        XPTI_CALL_success, Exit.continues, specStates, Op.nextState, h1, h2]

/-- Any number of cycles from `UNINITED` or `STOPPED` runs through with every call returning. -/
theorem run_cycles (cs : List Cycle) (s : TracerState) (ns : Nat)
    (hs : s = UNINITED ∨ s = STOPPED) :
    (run (cyclesOps cs) ⟨s, ns⟩).map Effect.exit =
      (cyclesOps cs).map (fun _ => Exit.returned) ∧
    (run (cyclesOps cs) ⟨s, ns⟩).map (fun e => e.tracer.state_) =
      specStates (cyclesOps cs) := by
  induction cs generalizing s ns with
  | nil => simp [cyclesOps, run, specStates]
  | cons c cs ih =>
    obtain ⟨h1, h2⟩ := run_cycle c (cyclesOps cs) s ns hs
    obtain ⟨i1, i2⟩ := ih STOPPED c.now (Or.inr rfl)
    simp only [cyclesOps]
    rw [h1, h2, i1, i2]
    simp [specStates]

/-- C1. With every vendor call succeeding, each lifecycle operation called from a state of its
valid set returns and leaves exactly the specified next state (prepare from `UNINITED` or
`STOPPED` gives `READY`, start from `READY` gives `STARTED`, stop from `STARTED` gives
`STOPPED`, collect from `STOPPED` on a feed that drains to empty gives `STOPPED`); and for
every list of cycles prepare, start, stop, (collect) run from `UNINITED`, every call is made
and returns, the states passed through being the specified ones. -/
theorem C1_lifecycle_in_order_succeeds :
    (∀ ns, PrepareTracing XPTI_SUCCESS ⟨UNINITED, ns⟩ =
        ⟨Exit.returned, ⟨READY, ns⟩, [Call.xptiActivityEnable]⟩) ∧
    (∀ ns, PrepareTracing XPTI_SUCCESS ⟨STOPPED, ns⟩ =
        ⟨Exit.returned, ⟨READY, ns⟩, [Call.xptiActivityEnable]⟩) ∧
    (∀ ns now, StartTracing XPTI_SUCCESS now ⟨READY, ns⟩ =
        ⟨Exit.returned, ⟨STARTED, now⟩, [Call.xptiStartTracing, Call.PosixInNsec]⟩) ∧
    (∀ ns, StopTracing XPTI_SUCCESS XPTI_SUCCESS ⟨STARTED, ns⟩ =
        ⟨Exit.returned, ⟨STOPPED, ns⟩, [Call.xptiStopTracing, Call.xptiActivityDisable]⟩) ∧
    (∀ ns records last,
        (CollectTraceData XPTI_SUCCESS (feedOf records last) ⟨STOPPED, ns⟩).exit =
          Exit.returned ∧
        (CollectTraceData XPTI_SUCCESS (feedOf records last) ⟨STOPPED, ns⟩).tracer =
          ⟨STOPPED, ns⟩) ∧
    (∀ (cs : List Cycle) ns,
        (run (cyclesOps cs) ⟨UNINITED, ns⟩).length = (cyclesOps cs).length ∧
        (run (cyclesOps cs) ⟨UNINITED, ns⟩).map Effect.exit =
          List.replicate (cyclesOps cs).length Exit.returned ∧
        (run (cyclesOps cs) ⟨UNINITED, ns⟩).map (fun e => e.tracer.state_) =
          specStates (cyclesOps cs)) := by
  refine ⟨fun _ => rfl, fun _ => rfl, fun _ _ => rfl, fun _ => rfl, ?_, ?_⟩
  · intro ns records last
    exact CollectTraceData_feedOf ns records last
  · intro cs ns
    obtain ⟨h1, h2⟩ := run_cycles cs UNINITED ns (Or.inl rfl)
    refine ⟨?_, ?_, h2⟩
    · have := congrArg List.length h1
      simpa using this
    · rw [h1]
      simp [List.eq_replicate_iff]

/-- The macro either lets execution continue or exits with the status it was given. -/
theorem XPTI_CALL_cases (s : XPTIResult) :
    XPTI_CALL s = none ∨ XPTI_CALL s = some (Exit.exited s) := by
  unfold XPTI_CALL
  split <;> simp

/-- The loop never ends with a precondition failure. -/
theorem drainLoop_exit_ne_precondition (ns : Nat) (feed : List NextRecordReply) :
    (drainLoop ns feed).exit ≠ Exit.PreconditionNotMet := by
  induction feed with
  | nil => simp [drainLoop]
  | cons reply feed ih =>
    unfold drainLoop
    split
    · exact ih
    · split
      · simp
      · rcases XPTI_CALL_cases reply.status with h | h <;> rw [h]
        · exact ih
        · simp

/-- What `CollectTraceData` does from a state other than `STOPPED`. -/
theorem CollectTraceData_not_stopped (flush : XPTIResult) (feed : List NextRecordReply)
    (t : XPUTracer) (h : t.state_ ≠ STOPPED) :
    CollectTraceData flush feed t = ⟨⟨Exit.PreconditionNotMet, t, []⟩, feed⟩ := by
  simp [CollectTraceData, h]

/-- From `STOPPED`, `CollectTraceData` does not end with a precondition failure. -/
theorem CollectTraceData_stopped_exit (flush : XPTIResult) (feed : List NextRecordReply)
    (ns : Nat) :
    (CollectTraceData flush feed ⟨STOPPED, ns⟩).exit ≠ Exit.PreconditionNotMet := by
  unfold CollectTraceData
  rcases XPTI_CALL_cases flush with h | h <;> simp only [if_true, h]
  · exact drainLoop_exit_ne_precondition ns feed
  · simp

/-- C2. For every state and every lifecycle operation, whatever the vendor would answer: the
operation ends with `PreconditionNotMet` exactly when the state is outside its valid set; and
whenever it ends so, the tracer object (state and recorded start time) is unchanged and no
external call at all has been made (no vendor call, no append to the collector); for collect
the feed is left untouched too. -/
theorem C2_out_of_order_fails_loudly (op : Op) (t : XPUTracer) :
    ((op.apply t).exit = Exit.PreconditionNotMet ↔ t.state_ ∉ op.validStates) ∧
    ((op.apply t).exit ≠ Exit.PreconditionNotMet ∨
      op.apply t = ⟨Exit.PreconditionNotMet, t, []⟩) ∧
    (∀ flush feed, (CollectTraceData flush feed t).exit ≠ Exit.PreconditionNotMet ∨
      CollectTraceData flush feed t = ⟨⟨Exit.PreconditionNotMet, t, []⟩, feed⟩) := by
  obtain ⟨s, ns⟩ := t
  have hc := fun flush feed => CollectTraceData_stopped_exit flush feed ns
  have hn := fun flush feed (h : s ≠ STOPPED) =>
    CollectTraceData_not_stopped flush feed ⟨s, ns⟩ h
  refine ⟨?_, ?_, ?_⟩
  · cases op with
    | prepare r =>
      rcases XPTI_CALL_cases r with h | h <;> cases s <;>
        simp [Op.apply, PrepareTracing, Op.validStates, h]
    | start r now =>
      rcases XPTI_CALL_cases r with h | h <;> cases s <;>
        simp [Op.apply, StartTracing, Op.validStates, h]
    | stop r1 r2 =>
      rcases XPTI_CALL_cases r1 with h | h <;> rcases XPTI_CALL_cases r2 with h2 | h2 <;>
        cases s <;> simp [Op.apply, StopTracing, Op.validStates, h, h2]
    | collect r feed =>
      cases s
      case STOPPED => simpa [Op.apply, Op.validStates] using hc r feed
      all_goals simp [Op.apply, Op.validStates, hn r feed]
  · cases op with
    | prepare r =>
      rcases XPTI_CALL_cases r with h | h <;> cases s <;>
        simp [Op.apply, PrepareTracing, h]
    | start r now =>
      rcases XPTI_CALL_cases r with h | h <;> cases s <;>
        simp [Op.apply, StartTracing, h]
    | stop r1 r2 =>
      rcases XPTI_CALL_cases r1 with h | h <;> rcases XPTI_CALL_cases r2 with h2 | h2 <;>
        cases s <;> simp [Op.apply, StopTracing, h, h2]
    | collect r feed =>
      cases s
      case STOPPED => exact Or.inl (hc r feed)
      all_goals simp [Op.apply, hn r feed]
  · intro flush feed
    cases s
    case STOPPED => exact Or.inl (hc flush feed)
    all_goals exact Or.inr (hn flush feed (by decide))

/-- The collector calls the code makes for a record are the specification's image of it. -/
theorem switchRecord_eq_specEmit (r : XPTIEvent) (ns : Nat) :
    switchRecord r ns = (specEmit ns r).toList := by
  obtain ⟨type, object⟩ := r
  cases type <;> cases object <;>
    simp only [switchRecord, specEmit, specKind, specStart, specImage, AddApiRecord,
      AddKernelRecord, AddMemcpyRecord, AddWaitRecord, dynamic_cast_XPTIEventAPI,
      dynamic_cast_XPTIEventKernel, dynamic_cast_XPTIEventMem, dynamic_cast_XPTIEventWait,
      Option.toList] <;>
    first
      | rfl
      | (rename_i e
         by_cases h : e.start < ns
         · simp [h, Nat.not_le.mpr h]
         · simp [h, Nat.not_lt.mp h])

/-- The collector receives exactly the collector calls of a trace that consists of them. -/
theorem appended_map_collector (l : List CollectorCall) :
    appended (l.map Call.collector) = l := by
  induction l with
  | nil => rfl
  | cons a l ih =>
    simp only [appended] at ih
    simp [appended, ih]

theorem appended_append (l l' : List Call) :
    appended (l ++ l') = appended l ++ appended l' := by
  simp [appended, List.filterMap_append]

/-- The collector calls of one iteration are those of the `switch`. -/
theorem appended_iteration (ns : Nat) (r : XPTIEvent) :
    appended (iteration ns r) = switchRecord r ns := by
  have h := appended_map_collector (switchRecord r ns)
  simp only [appended] at h
  simp [iteration, appended, List.filterMap_append, h]

/-- What a trace of whole iterations appends. -/
theorem appended_iterations (ns : Nat) (l : List XPTIEvent) :
    appended (l.flatMap (iteration ns)) = l.flatMap (fun r => switchRecord r ns) := by
  induction l with
  | nil => rfl
  | cons r l ih => simp [List.flatMap_cons, appended_append, appended_iteration, ih]

theorem flatMap_toList_eq_filterMap {α β : Type} (f : α → Option β) (l : List α) :
    l.flatMap (fun a => (f a).toList) = l.filterMap f := by
  induction l with
  | nil => rfl
  | cons a l ih =>
    rw [List.flatMap_cons, ih, List.filterMap_cons]
    cases f a <;> simp [Option.toList]

/-- The loop on an arbitrary list of replies: it performs one iteration per reply answered
`XPTI_SUCCESS` up to the first other status, then one more pull when the feed holds such a
status, and ends as that status says. -/
theorem drainLoop_eq (ns : Nat) (feed : List NextRecordReply) :
    drainLoop ns feed =
      ⟨specDrainExit (firstFailure feed),
        (retrieved feed).flatMap (fun reply => iteration ns reply.record) ++
          (if (retrieved feed).length < feed.length then [Call.xptiActivityGetNextRecord]
            else []),
        feed.drop ((retrieved feed).length + 1)⟩ := by
  induction feed with
  | nil => simp [drainLoop, retrieved, firstFailure, specDrainExit]
  | cons reply feed ih =>
    by_cases h : reply.status = XPTI_SUCCESS
    · have hr : retrieved (reply :: feed) = reply :: retrieved feed := by
        simp [retrieved, List.takeWhile_cons, h]
      have hf : firstFailure (reply :: feed) = firstFailure feed := by
        simp [firstFailure, List.find?_cons, h]
      rw [hr, hf]
      unfold drainLoop
      rw [if_pos h, ih]
      simp [iteration]
    · have hr : retrieved (reply :: feed) = [] := by
        simp [retrieved, List.takeWhile_cons, h]
      have hf : firstFailure (reply :: feed) = some reply.status := by
        simp [firstFailure, List.find?_cons, h]
      rw [hr, hf]
      unfold drainLoop
      rw [if_neg h]
      by_cases h2 : reply.status = XPTI_INVALID_DATA
      · rw [if_pos h2, h2]
        simp [specDrainExit]
      · rw [if_neg h2, XPTI_CALL_failure _ h]
        cases hs : reply.status with
        | XPTI_SUCCESS => exact absurd hs h
        | XPTI_INVALID_DATA => exact absurd hs h2
        | XPTI_OTHER code => simp [specDrainExit]

/-- The records retrieved from a feed that yields `records` and then a status other than
success. -/
theorem retrieved_records (records : List XPTIEvent) (reply : NextRecordReply)
    (rest : List NextRecordReply) (h : reply.status ≠ XPTI_SUCCESS) :
    retrieved (records.map recordReply ++ reply :: rest) = records.map recordReply := by
  induction records with
  | nil => simp [retrieved, List.takeWhile_cons, h]
  | cons r rs ih =>
    simp only [retrieved] at ih
    simp [retrieved, List.takeWhile_cons, recordReply, ih]

theorem firstFailure_cons_success (reply : NextRecordReply) (feed : List NextRecordReply)
    (h : reply.status = XPTI_SUCCESS) : firstFailure (reply :: feed) = firstFailure feed := by
  simp [firstFailure, List.find?_cons, h]

theorem firstFailure_cons_failure (reply : NextRecordReply) (feed : List NextRecordReply)
    (h : reply.status ≠ XPTI_SUCCESS) : firstFailure (reply :: feed) = some reply.status := by
  simp [firstFailure, List.find?_cons, h]

/-- The first failure of a feed that yields `records` and then a status other than success. -/
theorem firstFailure_records (records : List XPTIEvent) (reply : NextRecordReply)
    (rest : List NextRecordReply) (h : reply.status ≠ XPTI_SUCCESS) :
    firstFailure (records.map recordReply ++ reply :: rest) = some reply.status := by
  induction records with
  | nil => exact firstFailure_cons_failure reply rest h
  | cons r rs ih =>
    rw [List.map_cons, List.cons_append, firstFailure_cons_success _ _ rfl, ih]

/-- C3. For every finite feed of records (of any kinds and timestamps) followed by the empty
status, and every session start time, `CollectTraceData` called in `STOPPED` returns and the
collector receives exactly the images of the records of a recognized kind (API, Kernel,
Memcpy, Wait) whose start time is at least the session start, in feed order, each once, and
nothing else: the appended sequence is the filter-map of the feed by the specification's
classify-and-filter function. -/
theorem C3_collect_appends_filterMap (ns : Nat) (records : List XPTIEvent) (last : XPTIEvent)
    (rest : List NextRecordReply) :
    (CollectTraceData XPTI_SUCCESS (feedOf records last ++ rest) ⟨STOPPED, ns⟩).exit =
      Exit.returned ∧
    appended (CollectTraceData XPTI_SUCCESS (feedOf records last ++ rest) ⟨STOPPED, ns⟩).calls =
      records.filterMap (specEmit ns) ∧
    (CollectTraceData XPTI_SUCCESS (feedOf records last ++ rest) ⟨STOPPED, ns⟩).feed = rest := by
  have hd := drainLoop_records ns records last rest
  have ha := appended_iterations ns records
  refine ⟨?_, ?_, ?_⟩
  · simp [CollectTraceData, XPTI_CALL_success, feedOf, hd]
  · simp only [CollectTraceData, XPTI_CALL_success, feedOf, if_true, List.append_assoc,
      List.singleton_append, hd]
    rw [← flatMap_toList_eq_filterMap]
    simp only [← switchRecord_eq_specEmit]
    rw [← ha]
    simp [appended, List.filterMap_append]
  · simp [CollectTraceData, XPTI_CALL_success, feedOf, hd]

/-- One iteration of the loop on a reply answered `XPTI_SUCCESS`. -/
theorem drainLoop_cons_success (ns : Nat) (reply : NextRecordReply)
    (feed : List NextRecordReply) (h : reply.status = XPTI_SUCCESS) :
    drainLoop ns (reply :: feed) =
      ⟨(drainLoop ns feed).exit, iteration ns reply.record ++ (drainLoop ns feed).calls,
        (drainLoop ns feed).feed⟩ := by
  rw [drainLoop, if_pos h]
  simp [iteration]

/-- The last iteration of the loop, on a reply with a status other than `XPTI_SUCCESS`. -/
theorem drainLoop_cons_failure (ns : Nat) (reply : NextRecordReply)
    (feed : List NextRecordReply) (h : reply.status ≠ XPTI_SUCCESS) :
    drainLoop ns (reply :: feed) =
      ⟨specDrainExit (some reply.status), [Call.xptiActivityGetNextRecord], feed⟩ := by
  rw [drainLoop, if_neg h]
  by_cases h2 : reply.status = XPTI_INVALID_DATA
  · rw [if_pos h2, h2]
    simp [specDrainExit]
  · rw [if_neg h2, XPTI_CALL_failure _ h]
    cases hs : reply.status with
    | XPTI_SUCCESS => exact absurd hs h
    | XPTI_INVALID_DATA => exact absurd hs h2
    | XPTI_OTHER code => simp [specDrainExit]

/-- A vendor call does not occur among collector calls. -/
theorem count_map_collector (c : Call) (hc : ∀ a, Call.collector a ≠ c)
    (l : List CollectorCall) : (l.map Call.collector).count c = 0 := by
  rw [List.count_eq_zero]
  intro hmem
  obtain ⟨a, _, ha⟩ := List.mem_map.mp hmem
  exact hc a ha

/-- One iteration releases once and pulls once. -/
theorem count_iteration (ns : Nat) (r : XPTIEvent) :
    (iteration ns r).count Call.xptiActivityPopRecord = 1 ∧
    (iteration ns r).count Call.xptiActivityGetNextRecord = 1 := by
  have h1 := count_map_collector Call.xptiActivityPopRecord (by simp) (switchRecord r ns)
  have h2 := count_map_collector Call.xptiActivityGetNextRecord (by simp) (switchRecord r ns)
  simp [iteration, List.count_cons, List.count_append, h1, h2]

/-- Releases and pulls of the loop, counted against the replies it consumed. -/
theorem drainLoop_counts (ns : Nat) (feed : List NextRecordReply) :
    (drainLoop ns feed).feed.length ≤ feed.length ∧
    (drainLoop ns feed).calls.count Call.xptiActivityPopRecord =
      ((feed.take (feed.length - (drainLoop ns feed).feed.length)).filter
        fun reply => decide (reply.status = XPTI_SUCCESS)).length ∧
    (drainLoop ns feed).calls.count Call.xptiActivityGetNextRecord =
      feed.length - (drainLoop ns feed).feed.length := by
  induction feed with
  | nil => simp [drainLoop]
  | cons reply feed ih =>
    obtain ⟨hl, hp, hg⟩ := ih
    by_cases h : reply.status = XPTI_SUCCESS
    · obtain ⟨c1, c2⟩ := count_iteration ns reply.record
      rw [drainLoop_cons_success ns reply feed h]
      have he : (reply :: feed).length - (drainLoop ns feed).feed.length =
          (feed.length - (drainLoop ns feed).feed.length) + 1 := by
        simp only [List.length_cons]
        omega
      refine ⟨?_, ?_, ?_⟩
      · simp only [List.length_cons]
        omega
      · simp only [he, List.take_succ_cons, List.count_append, c1, hp]
        simp [List.filter_cons, h]
        omega
      · simp only [he, List.count_append, c2, hg]
        omega
    · rw [drainLoop_cons_failure ns reply feed h]
      simp [List.filter_cons, h]

/-- C4. For every feed, one `CollectTraceData` (from `STOPPED`, flush succeeding) makes exactly
these external calls: the flush, then for each successfully retrieved record, in order, the
pull, the collector calls for that record (none when it is dropped by the time filter or as an
unknown kind) and the release, and last, when the feed holds a status other than success, the
pull answered with it and nothing after. Hence each release follows the processing of its
record and precedes the next pull, and none follows an empty or error status. For every flush
status and tracer state, the number of releases is the number of replies consumed that were
answered `XPTI_SUCCESS`, and the number of pulls is the number of replies consumed. -/
theorem C4_every_retrieved_record_released_once (ns : Nat) (feed : List NextRecordReply) :
    (CollectTraceData XPTI_SUCCESS feed ⟨STOPPED, ns⟩).calls =
      Call.xptiActivityFlushAll ::
        ((retrieved feed).flatMap (fun reply =>
            Call.xptiActivityGetNextRecord ::
              ((switchRecord reply.record ns).map Call.collector ++
                [Call.xptiActivityPopRecord])) ++
          (if (retrieved feed).length < feed.length then [Call.xptiActivityGetNextRecord]
            else [])) ∧
    (CollectTraceData XPTI_SUCCESS feed ⟨STOPPED, ns⟩).calls.count Call.xptiActivityPopRecord =
      (retrieved feed).length ∧
    (∀ flush t,
      (CollectTraceData flush feed t).calls.count Call.xptiActivityPopRecord =
        ((consumed feed (CollectTraceData flush feed t)).filter
          fun reply => decide (reply.status = XPTI_SUCCESS)).length ∧
      (CollectTraceData flush feed t).calls.count Call.xptiActivityGetNextRecord =
        (consumed feed (CollectTraceData flush feed t)).length) := by
  have hcalls : (CollectTraceData XPTI_SUCCESS feed ⟨STOPPED, ns⟩).calls =
      Call.xptiActivityFlushAll ::
        ((retrieved feed).flatMap (fun reply => iteration ns reply.record) ++
          (if (retrieved feed).length < feed.length then [Call.xptiActivityGetNextRecord]
            else [])) := by
    simp [CollectTraceData, XPTI_CALL_success, drainLoop_eq]
  refine ⟨?_, ?_, ?_⟩
  · simpa [iteration] using hcalls
  · rw [hcalls]
    have hsum : ∀ l : List NextRecordReply,
        (l.flatMap fun reply => iteration ns reply.record).count Call.xptiActivityPopRecord =
          l.length := by
      intro l
      induction l with
      | nil => rfl
      | cons a l ih => simp [List.flatMap_cons, List.count_append, (count_iteration ns _).1, ih]; omega
    rw [List.count_cons, List.count_append, hsum]
    split <;> simp
  · intro flush t
    obtain ⟨st, ns'⟩ := t
    obtain ⟨hl, hp, hg⟩ := drainLoop_counts ns' feed
    by_cases hst : st = STOPPED
    · subst hst
      rcases XPTI_CALL_cases flush with h | h
      · simp only [CollectTraceData, if_true, h, consumed]
        rw [List.count_cons, List.count_cons, hp, hg]
        simp
      · by_cases hf : flush = XPTI_SUCCESS
        · rw [hf, XPTI_CALL_success] at h
          exact absurd h (by simp)
        · simp [CollectTraceData, XPTI_CALL_failure flush hf, consumed]
    · simp [CollectTraceData, hst, consumed]

/-- A collect call from `STOPPED` whose flush succeeds, on a feed that yields `records`, then
the empty status, then `rest`. -/
theorem CollectTraceData_records (ns : Nat) (records : List XPTIEvent) (last : XPTIEvent)
    (rest : List NextRecordReply) :
    CollectTraceData XPTI_SUCCESS (feedOf records last ++ rest) ⟨STOPPED, ns⟩ =
      ⟨⟨Exit.returned, ⟨STOPPED, ns⟩,
          Call.xptiActivityFlushAll ::
            (records.flatMap (iteration ns) ++ [Call.xptiActivityGetNextRecord])⟩, rest⟩ := by
  simp [CollectTraceData, XPTI_CALL_success, feedOf, drainLoop_records]

/-- A collect call from `STOPPED` on a feed whose next reply is the empty status. -/
theorem CollectTraceData_empty (flush : XPTIResult) (ns : Nat) (last : XPTIEvent)
    (rest : List NextRecordReply) :
    CollectTraceData flush (emptyReply last :: rest) ⟨STOPPED, ns⟩ =
      if flush = XPTI_SUCCESS then
        ⟨⟨Exit.returned, ⟨STOPPED, ns⟩,
          [Call.xptiActivityFlushAll, Call.xptiActivityGetNextRecord]⟩, rest⟩
      else
        ⟨⟨Exit.exited flush, ⟨STOPPED, ns⟩, [Call.xptiActivityFlushAll]⟩,
          emptyReply last :: rest⟩ := by
  by_cases h : flush = XPTI_SUCCESS
  · subst h
    simp [CollectTraceData, XPTI_CALL_success, drainLoop, emptyReply]
  · simp [CollectTraceData, XPTI_CALL_failure flush h, h]

/-- C5. For every feed that drains to empty (any records, then the empty status) and is empty
at the next pull too: the first `CollectTraceData` from `STOPPED` returns, and a second call
made right after it, on the same tracer and on what the first call left of the feed, returns
when its flush succeeds, appends nothing to the collector whatever its flush answers, and
leaves the tracer in `STOPPED` with the same recorded start time. -/
theorem C5_second_collect_appends_nothing (ns : Nat) (records : List XPTIEvent)
    (last last2 : XPTIEvent) (rest : List NextRecordReply) (flush2 : XPTIResult) :
    (CollectTraceData XPTI_SUCCESS (feedOf records last ++ emptyReply last2 :: rest)
      ⟨STOPPED, ns⟩).exit = Exit.returned ∧
    (CollectTraceData XPTI_SUCCESS
      (CollectTraceData XPTI_SUCCESS (feedOf records last ++ emptyReply last2 :: rest)
        ⟨STOPPED, ns⟩).feed
      (CollectTraceData XPTI_SUCCESS (feedOf records last ++ emptyReply last2 :: rest)
        ⟨STOPPED, ns⟩).tracer).toEffect =
      ⟨Exit.returned, ⟨STOPPED, ns⟩,
        [Call.xptiActivityFlushAll, Call.xptiActivityGetNextRecord]⟩ ∧
    appended (CollectTraceData flush2
      (CollectTraceData XPTI_SUCCESS (feedOf records last ++ emptyReply last2 :: rest)
        ⟨STOPPED, ns⟩).feed
      (CollectTraceData XPTI_SUCCESS (feedOf records last ++ emptyReply last2 :: rest)
        ⟨STOPPED, ns⟩).tracer).calls = [] ∧
    (CollectTraceData flush2
      (CollectTraceData XPTI_SUCCESS (feedOf records last ++ emptyReply last2 :: rest)
        ⟨STOPPED, ns⟩).feed
      (CollectTraceData XPTI_SUCCESS (feedOf records last ++ emptyReply last2 :: rest)
        ⟨STOPPED, ns⟩).tracer).tracer = ⟨STOPPED, ns⟩ := by
  rw [CollectTraceData_records]
  simp only [CollectTraceData_empty]
  refine ⟨by simp, by simp, ?_, ?_⟩
  · by_cases h : flush2 = XPTI_SUCCESS <;> simp [h, appended]
  · by_cases h : flush2 = XPTI_SUCCESS <;> simp [h]

/-- What the collector receives from a collect call on a feed that yields `records` and then
the empty status: the collector calls of the `switch` for each record, in order. -/
theorem appended_CollectTraceData_feedOf (ns : Nat) (records : List XPTIEvent)
    (last : XPTIEvent) :
    appended (CollectTraceData XPTI_SUCCESS (feedOf records last) ⟨STOPPED, ns⟩).calls =
      records.flatMap (fun r => switchRecord r ns) := by
  have h := CollectTraceData_records ns records last []
  rw [List.append_nil] at h
  rw [h, ← appended_iterations]
  simp [appended, List.filterMap_append]

/-- C6. For every API record and session start `t`: when the record starts at or after `t` the
collector receives exactly one call, `AddRuntimeEvent`, with name, start, end, process id and
thread id copied from the record and the correlation id set to the token (and no device
event); when it starts before `t` the collector receives nothing. This holds of `AddApiRecord`
and of a whole `CollectTraceData` on a feed yielding that one record. The record
`launch, 100, 150, pid 1, tid 2, token 7` gives one runtime event with correlation id 7 when
the session start is 50 and nothing when it is 200. -/
theorem C6_api_record_gives_runtime_event (api : XPTIEventAPI) (t : Nat) (last : XPTIEvent) :
    AddApiRecord ⟨XPTI_EVENT_TYPE_API, XPTIEventObject.api api⟩ t =
      (if t ≤ api.start then
        [CollectorCall.AddRuntimeEvent
          ⟨api.name, api.start, api.end_, api.pid, api.tid, some api.token⟩]
      else []) ∧
    appended (CollectTraceData XPTI_SUCCESS
      (feedOf [⟨XPTI_EVENT_TYPE_API, XPTIEventObject.api api⟩] last) ⟨STOPPED, t⟩).calls =
      (if t ≤ api.start then
        [CollectorCall.AddRuntimeEvent
          ⟨api.name, api.start, api.end_, api.pid, api.tid, some api.token⟩]
      else []) ∧
    appended (CollectTraceData XPTI_SUCCESS
      (feedOf [⟨XPTI_EVENT_TYPE_API, XPTIEventObject.api ⟨"launch", 100, 150, 1, 2, 7⟩⟩] last)
      ⟨STOPPED, 50⟩).calls =
      [CollectorCall.AddRuntimeEvent ⟨"launch", 100, 150, 1, 2, some 7⟩] ∧
    appended (CollectTraceData XPTI_SUCCESS
      (feedOf [⟨XPTI_EVENT_TYPE_API, XPTIEventObject.api ⟨"launch", 100, 150, 1, 2, 7⟩⟩] last)
      ⟨STOPPED, 200⟩).calls = [] := by
  have key : ∀ (a : XPTIEventAPI) (t : Nat),
      AddApiRecord ⟨XPTI_EVENT_TYPE_API, XPTIEventObject.api a⟩ t =
        (if t ≤ a.start then
          [CollectorCall.AddRuntimeEvent ⟨a.name, a.start, a.end_, a.pid, a.tid, some a.token⟩]
        else []) := by
    intro a t
    by_cases h : a.start < t
    · simp [AddApiRecord, dynamic_cast_XPTIEventAPI, h, Nat.not_le.mpr h]
    · simp [AddApiRecord, dynamic_cast_XPTIEventAPI, h, Nat.not_lt.mp h]
  have viaCollect : ∀ (a : XPTIEventAPI) (t : Nat),
      appended (CollectTraceData XPTI_SUCCESS
        (feedOf [⟨XPTI_EVENT_TYPE_API, XPTIEventObject.api a⟩] last) ⟨STOPPED, t⟩).calls =
        AddApiRecord ⟨XPTI_EVENT_TYPE_API, XPTIEventObject.api a⟩ t := by
    intro a t
    rw [appended_CollectTraceData_feedOf]
    simp [switchRecord]
  refine ⟨key api t, ?_, ?_, ?_⟩
  · rw [viaCollect, key]
  · rw [viaCollect, key]
    simp
  · rw [viaCollect, key]
    simp

/-- C7. For every Kernel record and session start `t`: when the record starts at or after `t`
the collector receives exactly one call, `AddDeviceEvent`, with type `Kernel`, with name,
start, end, device id and stream id copied from the record and the correlation id set to the
token (and no runtime event); when it starts before `t` the collector receives nothing. A
kernel record with device id 0 and stream id 3 gives a device event with device id 0 and
stream id 3. -/
theorem C7_kernel_record_gives_device_event (kernel : XPTIEventKernel) (t : Nat)
    (last : XPTIEvent) :
    AddKernelRecord ⟨XPTI_EVENT_TYPE_KERNEL, XPTIEventObject.kernel kernel⟩ t =
      (if t ≤ kernel.start then
        [CollectorCall.AddDeviceEvent
          ⟨kernel.name, TracerEventType.Kernel, kernel.start, kernel.end_, kernel.device_id,
            kernel.stream_id, kernel.token⟩]
      else []) ∧
    appended (CollectTraceData XPTI_SUCCESS
      (feedOf [⟨XPTI_EVENT_TYPE_KERNEL, XPTIEventObject.kernel kernel⟩] last)
      ⟨STOPPED, t⟩).calls =
      (if t ≤ kernel.start then
        [CollectorCall.AddDeviceEvent
          ⟨kernel.name, TracerEventType.Kernel, kernel.start, kernel.end_, kernel.device_id,
            kernel.stream_id, kernel.token⟩]
      else []) ∧
    appended (CollectTraceData XPTI_SUCCESS
      (feedOf [⟨XPTI_EVENT_TYPE_KERNEL,
        XPTIEventObject.kernel ⟨kernel.name, kernel.start, kernel.end_, 0, 3, kernel.token⟩⟩]
        last)
      ⟨STOPPED, kernel.start⟩).calls =
      [CollectorCall.AddDeviceEvent
        ⟨kernel.name, TracerEventType.Kernel, kernel.start, kernel.end_, 0, 3,
          kernel.token⟩] := by
  have key : ∀ (k : XPTIEventKernel) (t : Nat),
      AddKernelRecord ⟨XPTI_EVENT_TYPE_KERNEL, XPTIEventObject.kernel k⟩ t =
        (if t ≤ k.start then
          [CollectorCall.AddDeviceEvent
            ⟨k.name, TracerEventType.Kernel, k.start, k.end_, k.device_id, k.stream_id,
              k.token⟩]
        else []) := by
    intro k t
    by_cases h : k.start < t
    · simp [AddKernelRecord, dynamic_cast_XPTIEventKernel, h, Nat.not_le.mpr h]
    · simp [AddKernelRecord, dynamic_cast_XPTIEventKernel, h, Nat.not_lt.mp h]
  have viaCollect : ∀ (k : XPTIEventKernel) (t : Nat),
      appended (CollectTraceData XPTI_SUCCESS
        (feedOf [⟨XPTI_EVENT_TYPE_KERNEL, XPTIEventObject.kernel k⟩] last) ⟨STOPPED, t⟩).calls =
        AddKernelRecord ⟨XPTI_EVENT_TYPE_KERNEL, XPTIEventObject.kernel k⟩ t := by
    intro k t
    rw [appended_CollectTraceData_feedOf]
    simp [switchRecord]
  refine ⟨key kernel t, ?_, ?_⟩
  · rw [viaCollect, key]
  · rw [viaCollect, key]
    simp

/-- C8. For every Wait record and every Memcpy record and session start `t`: when the record
starts at or after `t` the collector receives exactly one call, `AddRuntimeEvent`, with name,
start, end, process id and thread id copied from the record and the correlation id never
assigned; when it starts before `t` the collector receives nothing. A Wait record and a Memcpy
record with equal name, start, end, pid and tid give the same collector calls. -/
theorem C8_wait_and_memcpy_records_carry_no_correlation_id (wait : XPTIEventWait)
    (memcpy : XPTIEventMem) (t : Nat) (last : XPTIEvent) :
    AddWaitRecord ⟨XPTI_EVENT_TYPE_WAIT, XPTIEventObject.wait wait⟩ t =
      (if t ≤ wait.start then
        [CollectorCall.AddRuntimeEvent
          ⟨wait.name, wait.start, wait.end_, wait.pid, wait.tid, none⟩]
      else []) ∧
    AddMemcpyRecord ⟨XPTI_EVENT_TYPE_MEMCPY, XPTIEventObject.mem memcpy⟩ t =
      (if t ≤ memcpy.start then
        [CollectorCall.AddRuntimeEvent
          ⟨memcpy.name, memcpy.start, memcpy.end_, memcpy.pid, memcpy.tid, none⟩]
      else []) ∧
    appended (CollectTraceData XPTI_SUCCESS
      (feedOf [⟨XPTI_EVENT_TYPE_WAIT, XPTIEventObject.wait wait⟩] last) ⟨STOPPED, t⟩).calls =
      AddWaitRecord ⟨XPTI_EVENT_TYPE_WAIT, XPTIEventObject.wait wait⟩ t ∧
    appended (CollectTraceData XPTI_SUCCESS
      (feedOf [⟨XPTI_EVENT_TYPE_MEMCPY, XPTIEventObject.mem memcpy⟩] last) ⟨STOPPED, t⟩).calls =
      AddMemcpyRecord ⟨XPTI_EVENT_TYPE_MEMCPY, XPTIEventObject.mem memcpy⟩ t ∧
    AddMemcpyRecord ⟨XPTI_EVENT_TYPE_MEMCPY,
        XPTIEventObject.mem ⟨wait.name, wait.start, wait.end_, wait.pid, wait.tid⟩⟩ t =
      AddWaitRecord ⟨XPTI_EVENT_TYPE_WAIT, XPTIEventObject.wait wait⟩ t := by
  refine ⟨?_, ?_, ?_, ?_, ?_⟩
  · by_cases h : wait.start < t
    · simp [AddWaitRecord, dynamic_cast_XPTIEventWait, h, Nat.not_le.mpr h]
    · simp [AddWaitRecord, dynamic_cast_XPTIEventWait, h, Nat.not_lt.mp h]
  · by_cases h : memcpy.start < t
    · simp [AddMemcpyRecord, dynamic_cast_XPTIEventMem, h, Nat.not_le.mpr h]
    · simp [AddMemcpyRecord, dynamic_cast_XPTIEventMem, h, Nat.not_lt.mp h]
  · rw [appended_CollectTraceData_feedOf]
    simp [switchRecord]
  · rw [appended_CollectTraceData_feedOf]
    simp [switchRecord]
  · simp [AddMemcpyRecord, AddWaitRecord, dynamic_cast_XPTIEventMem,
      dynamic_cast_XPTIEventWait]

/-- Pulls in a trace of whole iterations: one per record. -/
theorem count_pulls_iterations (ns : Nat) (records : List XPTIEvent) :
    (records.flatMap (iteration ns)).count Call.xptiActivityGetNextRecord = records.length := by
  induction records with
  | nil => rfl
  | cons r rs ih =>
    rw [List.flatMap_cons, List.count_append, (count_iteration ns r).2, ih, List.length_cons]
    omega

/-- The first status other than success is never success. -/
theorem firstFailure_ne_success (feed : List NextRecordReply) :
    firstFailure feed ≠ some XPTI_SUCCESS := by
  induction feed with
  | nil => simp [firstFailure]
  | cons reply feed ih =>
    by_cases h : reply.status = XPTI_SUCCESS
    · rw [firstFailure_cons_success reply feed h]
      exact ih
    · rw [firstFailure_cons_failure reply feed h]
      intro hs
      exact h (Option.some.inj hs)

/-- C9. For every feed that yields N records and then the empty status, `CollectTraceData`
from `STOPPED` returns after exactly N + 1 calls of `xptiActivityGetNextRecord`, having
consumed exactly N + 1 replies. When the very first pull reports empty, the loop makes that
single pull and nothing else: no collector call, no release, normal return. -/
theorem C9_drain_terminates_after_N_plus_one_pulls (ns : Nat) (records : List XPTIEvent)
    (last : XPTIEvent) (rest : List NextRecordReply) :
    (CollectTraceData XPTI_SUCCESS (feedOf records last ++ rest) ⟨STOPPED, ns⟩).exit =
      Exit.returned ∧
    (CollectTraceData XPTI_SUCCESS (feedOf records last ++ rest) ⟨STOPPED, ns⟩).calls.count
      Call.xptiActivityGetNextRecord = records.length + 1 ∧
    (consumed (feedOf records last ++ rest)
      (CollectTraceData XPTI_SUCCESS (feedOf records last ++ rest) ⟨STOPPED, ns⟩)).length =
      records.length + 1 ∧
    drainLoop ns (emptyReply last :: rest) =
      ⟨Exit.returned, [Call.xptiActivityGetNextRecord], rest⟩ ∧
    CollectTraceData XPTI_SUCCESS (emptyReply last :: rest) ⟨STOPPED, ns⟩ =
      ⟨⟨Exit.returned, ⟨STOPPED, ns⟩,
        [Call.xptiActivityFlushAll, Call.xptiActivityGetNextRecord]⟩, rest⟩ := by
  rw [CollectTraceData_records]
  refine ⟨rfl, ?_, ?_, ?_, ?_⟩
  · simp [List.count_cons, List.count_append, count_pulls_iterations]
  · simp [consumed, feedOf]
    omega
  · simp [drainLoop, emptyReply]
  · simp [CollectTraceData_empty]

/-- C10. `CollectTraceData` called in `STOPPED`, for every flush status and every feed: it
returns exactly when the flush succeeds and the first status other than success that record
retrieval answers is `XPTI_INVALID_DATA`; it ends in the fatal exit exactly when the flush
fails or that first status is another one, and then with the failing status; it never ends
with a precondition failure; and with a successful flush it never exits on
`XPTI_INVALID_DATA`. -/
theorem C10_collect_outcome (flush : XPTIResult) (feed : List NextRecordReply) (ns : Nat) :
    (CollectTraceData flush feed ⟨STOPPED, ns⟩).exit =
      (if flush = XPTI_SUCCESS then specDrainExit (firstFailure feed)
        else Exit.exited flush) ∧
    ((CollectTraceData flush feed ⟨STOPPED, ns⟩).exit = Exit.returned ↔
      flush = XPTI_SUCCESS ∧ firstFailure feed = some XPTI_INVALID_DATA) ∧
    (∀ s, (CollectTraceData flush feed ⟨STOPPED, ns⟩).exit = Exit.exited s ↔
      (flush ≠ XPTI_SUCCESS ∧ s = flush) ∨
      (flush = XPTI_SUCCESS ∧ firstFailure feed = some s ∧ s ≠ XPTI_INVALID_DATA)) ∧
    (CollectTraceData flush feed ⟨STOPPED, ns⟩).exit ≠ Exit.PreconditionNotMet ∧
    (flush ≠ XPTI_SUCCESS ∨
      (CollectTraceData flush feed ⟨STOPPED, ns⟩).exit ≠ Exit.exited XPTI_INVALID_DATA) := by
  have hne := firstFailure_ne_success feed
  have hexit : (CollectTraceData flush feed ⟨STOPPED, ns⟩).exit =
      (if flush = XPTI_SUCCESS then specDrainExit (firstFailure feed)
        else Exit.exited flush) := by
    by_cases h : flush = XPTI_SUCCESS
    · subst h
      simp [CollectTraceData, XPTI_CALL_success, drainLoop_eq]
    · simp [CollectTraceData, XPTI_CALL_failure flush h, h]
  refine ⟨hexit, ?_, ?_, CollectTraceData_stopped_exit flush feed ns, ?_⟩
  · rw [hexit]
    by_cases h : flush = XPTI_SUCCESS
    · simp only [h, if_true, true_and]
      cases hf : firstFailure feed with
      | none => simp [specDrainExit]
      | some s => cases s <;> simp [specDrainExit]
    · simp [h]
  · intro s
    rw [hexit]
    by_cases h : flush = XPTI_SUCCESS
    · simp only [h, if_true, true_and, ne_eq, not_true, false_and, false_or]
      cases hf : firstFailure feed with
      | none => simp [specDrainExit]
      | some s' =>
        cases s' with
        | XPTI_SUCCESS => exact absurd hf hne
        | XPTI_INVALID_DATA =>
          simp only [specDrainExit]
          constructor
          · intro hc
            exact absurd hc (by simp)
          · rintro ⟨h1, h2⟩
            exact absurd (Option.some.inj h1).symm h2
        | XPTI_OTHER code =>
          simp only [specDrainExit]
          constructor
          · intro hc
            have := Exit.exited.inj hc
            subst this
            exact ⟨rfl, by simp⟩
          · rintro ⟨h1, _⟩
            rw [Option.some.inj h1]
    · simp only [h, if_false, ne_eq, not_false_eq_true, true_and, false_and, or_false]
      constructor
      · intro hc
        exact (Exit.exited.inj hc).symm
      · intro hc
        rw [hc]
  · by_cases h : flush = XPTI_SUCCESS
    · right
      rw [hexit, if_pos h]
      cases hf : firstFailure feed with
      | none => simp [specDrainExit]
      | some s => cases s <;> simp [specDrainExit]
    · exact Or.inl h

/-- C11. `StartTracing` from `READY`: when `xptiStartTracing` answers success, the clock is read
after that call, the value read is what is recorded as start time, and the state becomes
`STARTED`; when it answers anything else, the call ends in the fatal exit with that status,
the clock has not been read, the recorded start time is the old one and the state is still
`READY`. -/
theorem C11_start_records_clock_after_vendor_success (start : XPTIResult) (now ns : Nat) :
    StartTracing start now ⟨READY, ns⟩ =
      (if start = XPTI_SUCCESS then
        ⟨Exit.returned, ⟨STARTED, now⟩, [Call.xptiStartTracing, Call.PosixInNsec]⟩
      else ⟨Exit.exited start, ⟨READY, ns⟩, [Call.xptiStartTracing]⟩) := by
  by_cases h : start = XPTI_SUCCESS
  · subst h
    simp [StartTracing, XPTI_CALL_success]
  · simp [StartTracing, XPTI_CALL_failure start h, h]

/-- C13. `StopTracing` from `STARTED` calls `xptiStopTracing` and then `xptiActivityDisable`
and reaches `STOPPED` exactly when both answer success: when the first fails the second is
never called, and when either fails the call ends in the fatal exit with the failing status
and the state is still `STARTED`. `PrepareTracing` from `UNINITED` or `STOPPED` makes the one
call `xptiActivityEnable` and reaches `READY` exactly when it answers success. -/
theorem C13_stop_and_prepare_need_vendor_success (stop disable enable : XPTIResult)
    (ns : Nat) :
    StopTracing stop disable ⟨STARTED, ns⟩ =
      (if stop = XPTI_SUCCESS then
        (if disable = XPTI_SUCCESS then
          ⟨Exit.returned, ⟨STOPPED, ns⟩, [Call.xptiStopTracing, Call.xptiActivityDisable]⟩
        else
          ⟨Exit.exited disable, ⟨STARTED, ns⟩,
            [Call.xptiStopTracing, Call.xptiActivityDisable]⟩)
      else ⟨Exit.exited stop, ⟨STARTED, ns⟩, [Call.xptiStopTracing]⟩) ∧
    ((StopTracing stop disable ⟨STARTED, ns⟩).tracer.state_ = STOPPED ↔
      stop = XPTI_SUCCESS ∧ disable = XPTI_SUCCESS) ∧
    PrepareTracing enable ⟨UNINITED, ns⟩ =
      (if enable = XPTI_SUCCESS then ⟨Exit.returned, ⟨READY, ns⟩, [Call.xptiActivityEnable]⟩
      else ⟨Exit.exited enable, ⟨UNINITED, ns⟩, [Call.xptiActivityEnable]⟩) ∧
    PrepareTracing enable ⟨STOPPED, ns⟩ =
      (if enable = XPTI_SUCCESS then ⟨Exit.returned, ⟨READY, ns⟩, [Call.xptiActivityEnable]⟩
      else ⟨Exit.exited enable, ⟨STOPPED, ns⟩, [Call.xptiActivityEnable]⟩) ∧
    ((PrepareTracing enable ⟨UNINITED, ns⟩).tracer.state_ = READY ↔ enable = XPTI_SUCCESS) ∧
    ((PrepareTracing enable ⟨STOPPED, ns⟩).tracer.state_ = READY ↔ enable = XPTI_SUCCESS) := by
  have hstop : StopTracing stop disable ⟨STARTED, ns⟩ =
      (if stop = XPTI_SUCCESS then
        (if disable = XPTI_SUCCESS then
          ⟨Exit.returned, ⟨STOPPED, ns⟩, [Call.xptiStopTracing, Call.xptiActivityDisable]⟩
        else
          ⟨Exit.exited disable, ⟨STARTED, ns⟩,
            [Call.xptiStopTracing, Call.xptiActivityDisable]⟩)
      else ⟨Exit.exited stop, ⟨STARTED, ns⟩, [Call.xptiStopTracing]⟩) := by
    by_cases h1 : stop = XPTI_SUCCESS
    · by_cases h2 : disable = XPTI_SUCCESS
      · subst h1 h2
        simp [StopTracing, XPTI_CALL_success]
      · subst h1
        simp [StopTracing, XPTI_CALL_success, XPTI_CALL_failure disable h2, h2]
    · simp [StopTracing, XPTI_CALL_failure stop h1, h1]
  have hprep : ∀ s : TracerState, s = UNINITED ∨ s = STOPPED →
      PrepareTracing enable ⟨s, ns⟩ =
        (if enable = XPTI_SUCCESS then
          ⟨Exit.returned, ⟨READY, ns⟩, [Call.xptiActivityEnable]⟩
        else ⟨Exit.exited enable, ⟨s, ns⟩, [Call.xptiActivityEnable]⟩) := by
    intro s hs
    by_cases h : enable = XPTI_SUCCESS
    · subst h
      rcases hs with rfl | rfl <;> simp [PrepareTracing, XPTI_CALL_success]
    · rcases hs with rfl | rfl <;> simp [PrepareTracing, XPTI_CALL_failure enable h, h]
  refine ⟨hstop, ?_, hprep UNINITED (Or.inl rfl), hprep STOPPED (Or.inr rfl), ?_, ?_⟩
  · rw [hstop]
    by_cases h1 : stop = XPTI_SUCCESS <;> by_cases h2 : disable = XPTI_SUCCESS <;>
      simp [h1, h2]
  · rw [hprep UNINITED (Or.inl rfl)]
    by_cases h : enable = XPTI_SUCCESS <;> simp [h]
  · rw [hprep STOPPED (Or.inr rfl)]
    by_cases h : enable = XPTI_SUCCESS <;> simp [h]

/-- C14. `CollectTraceData` leaves the tracer object (state and recorded start time) as it
was, for every flush status, feed and tracer. `PrepareTracing` and `StopTracing` never change
the recorded start time. `StartTracing` changes it exactly when it returns, to the one clock
reading it took, and reads the clock once then and not at all otherwise. So after `STOPPED`
to `READY` the stored value is still the previous session's start time, until the next
`StartTracing` returns. -/
theorem C14_start_time_written_by_start_only (r r2 : XPTIResult) (now : Nat)
    (feed : List NextRecordReply) (t : XPUTracer) :
    (CollectTraceData r feed t).tracer = t ∧
    (PrepareTracing r t).tracer.tracing_start_ns_ = t.tracing_start_ns_ ∧
    (StopTracing r r2 t).tracer.tracing_start_ns_ = t.tracing_start_ns_ ∧
    (StartTracing r now t).tracer.tracing_start_ns_ =
      (if (StartTracing r now t).exit = Exit.returned then now else t.tracing_start_ns_) ∧
    (StartTracing r now t).calls.count Call.PosixInNsec =
      (if (StartTracing r now t).exit = Exit.returned then 1 else 0) ∧
    (PrepareTracing r t).calls.count Call.PosixInNsec = 0 ∧
    (StopTracing r r2 t).calls.count Call.PosixInNsec = 0 ∧
    (PrepareTracing XPTI_SUCCESS ⟨STOPPED, t.tracing_start_ns_⟩).tracer =
      ⟨READY, t.tracing_start_ns_⟩ := by
  obtain ⟨s, ns⟩ := t
  refine ⟨?_, ?_, ?_, ?_, ?_, ?_, ?_, rfl⟩
  · unfold CollectTraceData
    split
    · rcases XPTI_CALL_cases r with h | h <;> simp [h]
    · rfl
  · rcases XPTI_CALL_cases r with h | h <;> cases s <;> simp [PrepareTracing, h]
  · rcases XPTI_CALL_cases r with h | h <;> rcases XPTI_CALL_cases r2 with h2 | h2 <;>
      cases s <;> simp [StopTracing, h, h2]
  · rcases XPTI_CALL_cases r with h | h <;> cases s <;> simp [StartTracing, h]
  · rcases XPTI_CALL_cases r with h | h <;> cases s <;> simp [StartTracing, h]
  · rcases XPTI_CALL_cases r with h | h <;> cases s <;> simp [PrepareTracing, h]
  · rcases XPTI_CALL_cases r with h | h <;> rcases XPTI_CALL_cases r2 with h2 | h2 <;>
      cases s <;> simp [StopTracing, h, h2]

/-- The time filter of the four `Add...Record` functions, on a record whose object is of the
kind its tag names: no collector call exactly when the start is before the session start. -/
theorem switchRecord_eq_nil_iff (t : Nat) (api : XPTIEventAPI) (kernel : XPTIEventKernel)
    (mem : XPTIEventMem) (wait : XPTIEventWait) :
    (switchRecord ⟨XPTI_EVENT_TYPE_API, XPTIEventObject.api api⟩ t = [] ↔ api.start < t) ∧
    (switchRecord ⟨XPTI_EVENT_TYPE_KERNEL, XPTIEventObject.kernel kernel⟩ t = [] ↔
      kernel.start < t) ∧
    (switchRecord ⟨XPTI_EVENT_TYPE_MEMCPY, XPTIEventObject.mem mem⟩ t = [] ↔ mem.start < t) ∧
    (switchRecord ⟨XPTI_EVENT_TYPE_WAIT, XPTIEventObject.wait wait⟩ t = [] ↔
      wait.start < t) := by
  refine ⟨?_, ?_, ?_, ?_⟩
  · by_cases h : api.start < t <;>
      simp [switchRecord, AddApiRecord, dynamic_cast_XPTIEventAPI, h]
  · by_cases h : kernel.start < t <;>
      simp [switchRecord, AddKernelRecord, dynamic_cast_XPTIEventKernel, h]
  · by_cases h : mem.start < t <;>
      simp [switchRecord, AddMemcpyRecord, dynamic_cast_XPTIEventMem, h]
  · by_cases h : wait.start < t <;>
      simp [switchRecord, AddWaitRecord, dynamic_cast_XPTIEventWait, h]

/-- C15. For each of the four recognized kinds the time filter compares the start only, and
strictly: the record is dropped exactly when its start is below the recorded session start.
A record whose start equals the session start is kept. The decision is the same whatever the
end time is: replacing the end of a record by any other value (below its start or below the
session start included) does not change whether it is dropped. -/
theorem C15_filter_is_strict_and_start_only (t : Nat) (api : XPTIEventAPI)
    (kernel : XPTIEventKernel) (mem : XPTIEventMem) (wait : XPTIEventWait) (otherEnd : Nat) :
    ((switchRecord ⟨XPTI_EVENT_TYPE_API, XPTIEventObject.api api⟩ t = [] ↔ api.start < t) ∧
      (switchRecord ⟨XPTI_EVENT_TYPE_KERNEL, XPTIEventObject.kernel kernel⟩ t = [] ↔
        kernel.start < t) ∧
      (switchRecord ⟨XPTI_EVENT_TYPE_MEMCPY, XPTIEventObject.mem mem⟩ t = [] ↔
        mem.start < t) ∧
      (switchRecord ⟨XPTI_EVENT_TYPE_WAIT, XPTIEventObject.wait wait⟩ t = [] ↔
        wait.start < t)) ∧
    (switchRecord ⟨XPTI_EVENT_TYPE_API, XPTIEventObject.api { api with start := t }⟩ t ≠ [] ∧
      switchRecord ⟨XPTI_EVENT_TYPE_KERNEL,
        XPTIEventObject.kernel { kernel with start := t }⟩ t ≠ [] ∧
      switchRecord ⟨XPTI_EVENT_TYPE_MEMCPY, XPTIEventObject.mem { mem with start := t }⟩ t ≠
        [] ∧
      switchRecord ⟨XPTI_EVENT_TYPE_WAIT, XPTIEventObject.wait { wait with start := t }⟩ t ≠
        []) ∧
    ((switchRecord ⟨XPTI_EVENT_TYPE_API,
        XPTIEventObject.api { api with end_ := otherEnd }⟩ t = [] ↔
        switchRecord ⟨XPTI_EVENT_TYPE_API, XPTIEventObject.api api⟩ t = []) ∧
      (switchRecord ⟨XPTI_EVENT_TYPE_KERNEL,
        XPTIEventObject.kernel { kernel with end_ := otherEnd }⟩ t = [] ↔
        switchRecord ⟨XPTI_EVENT_TYPE_KERNEL, XPTIEventObject.kernel kernel⟩ t = []) ∧
      (switchRecord ⟨XPTI_EVENT_TYPE_MEMCPY,
        XPTIEventObject.mem { mem with end_ := otherEnd }⟩ t = [] ↔
        switchRecord ⟨XPTI_EVENT_TYPE_MEMCPY, XPTIEventObject.mem mem⟩ t = []) ∧
      (switchRecord ⟨XPTI_EVENT_TYPE_WAIT,
        XPTIEventObject.wait { wait with end_ := otherEnd }⟩ t = [] ↔
        switchRecord ⟨XPTI_EVENT_TYPE_WAIT, XPTIEventObject.wait wait⟩ t = [])) := by
  obtain ⟨a1, a2, a3, a4⟩ := switchRecord_eq_nil_iff t api kernel mem wait
  obtain ⟨b1, b2, b3, b4⟩ := switchRecord_eq_nil_iff t { api with start := t }
    { kernel with start := t } { mem with start := t } { wait with start := t }
  obtain ⟨c1, c2, c3, c4⟩ := switchRecord_eq_nil_iff t { api with end_ := otherEnd }
    { kernel with end_ := otherEnd } { mem with end_ := otherEnd }
    { wait with end_ := otherEnd }
  refine ⟨⟨a1, a2, a3, a4⟩, ⟨?_, ?_, ?_, ?_⟩, ⟨?_, ?_, ?_, ?_⟩⟩
  · rw [Ne, b1]
    simp
  · rw [Ne, b2]
    simp
  · rw [Ne, b3]
    simp
  · rw [Ne, b4]
    simp
  · rw [c1, a1]
  · rw [c2, a2]
  · rw [c3, a3]
  · rw [c4, a4]

/-- The loop never calls `xptiActivityFlushAll`. -/
theorem drainLoop_no_flush (ns : Nat) (feed : List NextRecordReply) :
    (drainLoop ns feed).calls.count Call.xptiActivityFlushAll = 0 := by
  induction feed with
  | nil => simp [drainLoop]
  | cons reply feed ih =>
    by_cases h : reply.status = XPTI_SUCCESS
    · rw [drainLoop_cons_success ns reply feed h]
      have hc := count_map_collector Call.xptiActivityFlushAll (by simp)
        (switchRecord reply.record ns)
      simp [iteration, List.count_cons, List.count_append, hc, ih]
    · rw [drainLoop_cons_failure ns reply feed h]
      simp [List.count_cons]

/-- C16. In every `CollectTraceData` from `STOPPED`, for every flush status and feed:
`xptiActivityFlushAll` is the first external call and occurs exactly once in the whole trace,
however many records the feed yields; what follows it is the trace of the loop, which holds no
flush; and when the flush fails nothing follows it, no record is pulled and the feed is left
as it was. -/
theorem C16_flush_once_before_first_pull (flush : XPTIResult) (feed : List NextRecordReply)
    (ns : Nat) :
    (CollectTraceData flush feed ⟨STOPPED, ns⟩).calls =
      Call.xptiActivityFlushAll ::
        (if flush = XPTI_SUCCESS then (drainLoop ns feed).calls else []) ∧
    (CollectTraceData flush feed ⟨STOPPED, ns⟩).calls.count Call.xptiActivityFlushAll = 1 ∧
    (drainLoop ns feed).calls.count Call.xptiActivityFlushAll = 0 ∧
    (CollectTraceData flush feed ⟨STOPPED, ns⟩).calls.count Call.xptiActivityGetNextRecord =
      (if flush = XPTI_SUCCESS then
        (drainLoop ns feed).calls.count Call.xptiActivityGetNextRecord else 0) ∧
    (CollectTraceData flush feed ⟨STOPPED, ns⟩).feed =
      (if flush = XPTI_SUCCESS then (drainLoop ns feed).feed else feed) := by
  have hn := drainLoop_no_flush ns feed
  by_cases h : flush = XPTI_SUCCESS
  · subst h
    simp [CollectTraceData, XPTI_CALL_success, List.count_cons, hn]
  · simp [CollectTraceData, XPTI_CALL_failure flush h, h, hn]

/-- One record leads to at most one collector call. -/
theorem switchRecord_length_le_one (r : XPTIEvent) (ns : Nat) :
    (switchRecord r ns).length ≤ 1 := by
  rw [switchRecord_eq_specEmit]
  cases specEmit ns r <;> simp [Option.toList]

/-- A record that is of no recognized kind leads to no collector call. -/
theorem switchRecord_of_specKind_none (r : XPTIEvent) (ns : Nat) (h : specKind r = none) :
    switchRecord r ns = [] := by
  rw [switchRecord_eq_specEmit]
  simp [specEmit, h, Option.toList]

/-- The collector receives at most one call per iteration. -/
theorem length_appended_iterations_le (ns : Nat) (l : List NextRecordReply) :
    (appended (l.flatMap fun reply => iteration ns reply.record)).length ≤ l.length := by
  induction l with
  | nil => simp [appended]
  | cons a l ih =>
    have h1 := switchRecord_length_le_one a.record ns
    rw [List.flatMap_cons, appended_append, appended_iteration, List.length_append,
      List.length_cons]
    omega

/-- What the collector receives from any `CollectTraceData` is at most one call per record
retrieved. -/
theorem length_appended_CollectTraceData_le (flush : XPTIResult)
    (feed : List NextRecordReply) (t : XPUTracer) :
    (appended (CollectTraceData flush feed t).calls).length ≤ (retrieved feed).length := by
  obtain ⟨s, ns⟩ := t
  by_cases hs : s = STOPPED
  · subst hs
    by_cases h : flush = XPTI_SUCCESS
    · subst h
      have hl := length_appended_iterations_le ns (retrieved feed)
      have hc : (CollectTraceData XPTI_SUCCESS feed ⟨STOPPED, ns⟩).calls =
          [Call.xptiActivityFlushAll] ++
            (((retrieved feed).flatMap fun reply => iteration ns reply.record) ++
              (if (retrieved feed).length < feed.length then [Call.xptiActivityGetNextRecord]
                else [])) := by
        simp [CollectTraceData, XPTI_CALL_success, drainLoop_eq]
      rw [hc, appended_append, appended_append]
      have h1 : appended [Call.xptiActivityFlushAll] = [] := rfl
      have h2 : appended (if (retrieved feed).length < feed.length then
          [Call.xptiActivityGetNextRecord] else []) = [] := by
        split <;> rfl
      rw [h1, h2]
      simpa using hl
    · simp [CollectTraceData, XPTI_CALL_failure flush h, appended]
  · simp [CollectTraceData, hs, appended]

/-- C17. A retrieved record leads to at most one collector call, which carries the whole
event. A record of no recognized kind (its tag is outside API, Kernel, Memcpy, Wait, or names
one of them while the object carried is not of that kind, so that the downcast fails) leads to
no collector call and no error: the iteration is the pull and the release, and the loop goes
on with the following replies exactly as it would without that record, so the outcome and
what the collector receives are those of the rest of the feed. Hence what the collector
receives from any `CollectTraceData` never outnumbers the records retrieved. -/
theorem C17_at_most_one_append_per_record (ns : Nat) (r : XPTIEvent)
    (feed : List NextRecordReply) (h : specKind r = none) :
    switchRecord r ns = [] ∧
    drainLoop ns (recordReply r :: feed) =
      ⟨(drainLoop ns feed).exit,
        Call.xptiActivityGetNextRecord :: Call.xptiActivityPopRecord ::
          (drainLoop ns feed).calls,
        (drainLoop ns feed).feed⟩ ∧
    (CollectTraceData XPTI_SUCCESS (recordReply r :: feed) ⟨STOPPED, ns⟩).exit =
      (CollectTraceData XPTI_SUCCESS feed ⟨STOPPED, ns⟩).exit ∧
    appended (CollectTraceData XPTI_SUCCESS (recordReply r :: feed) ⟨STOPPED, ns⟩).calls =
      appended (CollectTraceData XPTI_SUCCESS feed ⟨STOPPED, ns⟩).calls ∧
    (∀ r' : XPTIEvent, (switchRecord r' ns).length ≤ 1) ∧
    (∀ (flush : XPTIResult) (feed' : List NextRecordReply) (t : XPUTracer),
      (appended (CollectTraceData flush feed' t).calls).length ≤ (retrieved feed').length) := by
  have h0 := switchRecord_of_specKind_none r ns h
  have hd : drainLoop ns (recordReply r :: feed) =
      ⟨(drainLoop ns feed).exit,
        Call.xptiActivityGetNextRecord :: Call.xptiActivityPopRecord ::
          (drainLoop ns feed).calls,
        (drainLoop ns feed).feed⟩ := by
    rw [drainLoop_record, h0]
    simp
  refine ⟨h0, hd, ?_, ?_, fun r' => switchRecord_length_le_one r' ns,
    fun flush feed' t => length_appended_CollectTraceData_le flush feed' t⟩
  · simp [CollectTraceData, XPTI_CALL_success, hd]
  · simp [CollectTraceData, XPTI_CALL_success, hd, appended]

/-- C17 at a Kernel-tagged record that carries an API object, followed by an API record: the
first leads to nothing, the second is forwarded. -/
theorem C17_at_most_one_append_per_record_witness :
    specKind ⟨XPTI_EVENT_TYPE_KERNEL, XPTIEventObject.api ⟨"launch", 100, 150, 1, 2, 7⟩⟩ =
      none ∧
    appended (CollectTraceData XPTI_SUCCESS
      (recordReply ⟨XPTI_EVENT_TYPE_KERNEL, XPTIEventObject.api ⟨"launch", 100, 150, 1, 2, 7⟩⟩ ::
        feedOf [⟨XPTI_EVENT_TYPE_API, XPTIEventObject.api ⟨"launch", 100, 150, 1, 2, 7⟩⟩]
          ⟨XPTI_EVENT_TYPE_OTHER 0, XPTIEventObject.base "none"⟩)
      ⟨STOPPED, 50⟩).calls =
    appended (CollectTraceData XPTI_SUCCESS
      (feedOf [⟨XPTI_EVENT_TYPE_API, XPTIEventObject.api ⟨"launch", 100, 150, 1, 2, 7⟩⟩]
        ⟨XPTI_EVENT_TYPE_OTHER 0, XPTIEventObject.base "none"⟩)
      ⟨STOPPED, 50⟩).calls :=
  ⟨rfl,
    (C17_at_most_one_append_per_record 50
      ⟨XPTI_EVENT_TYPE_KERNEL, XPTIEventObject.api ⟨"launch", 100, 150, 1, 2, 7⟩⟩
      (feedOf [⟨XPTI_EVENT_TYPE_API, XPTIEventObject.api ⟨"launch", 100, 150, 1, 2, 7⟩⟩]
        ⟨XPTI_EVENT_TYPE_OTHER 0, XPTIEventObject.base "none"⟩) rfl).2.2.2.1⟩

/-- A `StartTracing` that returns has recorded the clock reading it was given. -/
theorem StartTracing_returned (r : XPTIResult) (now : Nat) (t : XPUTracer)
    (h : (StartTracing r now t).exit = Exit.returned) :
    (StartTracing r now t).tracer.tracing_start_ns_ = now := by
  obtain ⟨s, ns⟩ := t
  rcases XPTI_CALL_cases r with hr | hr <;> cases s <;> simp_all [StartTracing]

theorem againstClock_tail (clock : Nat → Nat) (k : Nat) (op : Op) (ops : List Op)
    (h : againstClock clock k (op :: ops) = true) : againstClock clock (k + 1) ops = true := by
  cases op <;> simp_all [againstClock]

/-- In a run made against a clock, a `StartTracing` that returns as call number `j` has
recorded the reading of call number `j`. -/
theorem run_start_reads_clock (clock : Nat → Nat) (ops : List Op) :
    ∀ (k : Nat) (t : XPUTracer) (j : Nat) (r : XPTIResult) (now : Nat) (e : Effect),
      againstClock clock k ops = true → ops[j]? = some (Op.start r now) →
      (run ops t)[j]? = some e → e.exit = Exit.returned →
      e.tracer.tracing_start_ns_ = clock (k + j) := by
  induction ops with
  | nil =>
    intro k t j r now e _ hop
    simp at hop
  | cons op ops ih =>
    intro k t j r now e hk hop he hret
    cases j with
    | zero =>
      simp only [List.getElem?_cons_zero, Option.some.injEq] at hop
      subst hop
      simp only [run, List.getElem?_cons_zero, Option.some.injEq] at he
      subst he
      simp only [againstClock, Bool.and_eq_true, decide_eq_true_eq] at hk
      simp only [Op.apply] at hret ⊢
      rw [StartTracing_returned r now t hret, hk.1, Nat.add_zero]
    | succ j =>
      simp only [List.getElem?_cons_succ] at hop
      simp only [run, List.getElem?_cons_succ] at he
      by_cases hc : (op.apply t).exit.continues = true
      · rw [if_pos hc] at he
        have := ih (k + 1) (op.apply t).tracer j r now e (againstClock_tail clock k op ops hk)
          hop he hret
        rw [this]
        congr 1
        omega
      · rw [if_neg hc] at he
        simp at he

/-- C12. In every run of lifecycle calls on one tracer against a clock whose readings never
decrease (the reading during call number `k` being `clock k`, and each `StartTracing` being
given the reading of its own call): a `StartTracing` that returns as call number `j` has
recorded the reading of call `j`, which is at least the reading during every earlier call, in
particular during every earlier `StopTracing`, and at least the start time recorded by every
earlier `StartTracing` that returned. -/
theorem C12_start_time_not_before_earlier_stops (clock : Nat → Nat) (hmono : Monotone clock)
    (ops : List Op) (t : XPUTracer) (hclock : againstClock clock 0 ops = true)
    (j : Nat) (r : XPTIResult) (now : Nat) (e : Effect)
    (hop : ops[j]? = some (Op.start r now)) (he : (run ops t)[j]? = some e)
    (hret : e.exit = Exit.returned) :
    e.tracer.tracing_start_ns_ = clock j ∧
    (∀ i, i ≤ j → clock i ≤ e.tracer.tracing_start_ns_) ∧
    (∀ i r1 r2, i < j → ops[i]? = some (Op.stop r1 r2) →
      clock i ≤ e.tracer.tracing_start_ns_) ∧
    (∀ i r' now' e', i ≤ j → ops[i]? = some (Op.start r' now') →
      (run ops t)[i]? = some e' → e'.exit = Exit.returned →
      e'.tracer.tracing_start_ns_ ≤ e.tracer.tracing_start_ns_) := by
  have hj := run_start_reads_clock clock ops 0 t j r now e hclock hop he hret
  rw [Nat.zero_add] at hj
  refine ⟨hj, ?_, ?_, ?_⟩
  · intro i hi
    rw [hj]
    exact hmono hi
  · intro i _ _ hi _
    rw [hj]
    exact hmono (Nat.le_of_lt hi)
  · intro i r' now' e' hi hop' he' hret'
    have h' := run_start_reads_clock clock ops 0 t i r' now' e' hclock hop' he' hret'
    rw [Nat.zero_add] at h'
    rw [hj, h']
    exact hmono hi

/-- C12 at two sessions on a fresh tracer, prepare, start, stop, prepare, start, against the
clock reading `10 * k` during call `k`: the second start records 40, the stop ran at 20 and
the first start recorded 10. -/
theorem C12_start_time_not_before_earlier_stops_witness :
    (run [Op.prepare XPTI_SUCCESS, Op.start XPTI_SUCCESS 10,
        Op.stop XPTI_SUCCESS XPTI_SUCCESS, Op.prepare XPTI_SUCCESS, Op.start XPTI_SUCCESS 40]
      ⟨UNINITED, 0⟩)[4]? =
      some ⟨Exit.returned, ⟨STARTED, 40⟩, [Call.xptiStartTracing, Call.PosixInNsec]⟩ ∧
    (fun k => 10 * k) 2 ≤ 40 :=
  ⟨rfl,
    (C12_start_time_not_before_earlier_stops (fun k => 10 * k)
      (fun _ _ hab => Nat.mul_le_mul_left 10 hab)
      [Op.prepare XPTI_SUCCESS, Op.start XPTI_SUCCESS 10, Op.stop XPTI_SUCCESS XPTI_SUCCESS,
        Op.prepare XPTI_SUCCESS, Op.start XPTI_SUCCESS 40]
      ⟨UNINITED, 0⟩ rfl 4 XPTI_SUCCESS 40
      ⟨Exit.returned, ⟨STARTED, 40⟩, [Call.xptiStartTracing, Call.PosixInNsec]⟩
      rfl rfl rfl).2.2.1 2 XPTI_SUCCESS XPTI_SUCCESS (by decide) rfl⟩

/-- Receiving a trace in two parts. -/
theorem play_append (v : VendorFlags) (a b : List Call) :
    v.play (a ++ b) = (v.play a).bind fun v' => v'.play b := by
  induction a generalizing v with
  | nil => simp [VendorFlags.play]
  | cons c a ih =>
    simp only [List.cons_append, VendorFlags.play]
    split
    · rfl
    · exact ih _

/-- Collector calls do not reach the vendor. -/
theorem play_map_collector (v : VendorFlags) (l : List CollectorCall) :
    v.play (l.map Call.collector) = some v := by
  induction l with
  | nil => rfl
  | cons a l ih => simpa [VendorFlags.play, VendorFlags.misused, VendorFlags.receive] using ih

/-- While capture is not running the vendor accepts the whole trace of the drain loop, and the
loop leaves the flags as they are. -/
theorem play_drainLoop (v : VendorFlags) (hv : v.captureRunning = false) (ns : Nat)
    (feed : List NextRecordReply) : v.play (drainLoop ns feed).calls = some v := by
  induction feed with
  | nil => simp [drainLoop, VendorFlags.play]
  | cons reply feed ih =>
    by_cases h : reply.status = XPTI_SUCCESS
    · rw [drainLoop_cons_success ns reply feed h]
      have h1 : v.play (iteration ns reply.record) = some v := by
        have hm := play_map_collector v (switchRecord reply.record ns)
        simp only [iteration, VendorFlags.play, VendorFlags.misused, hv,
          VendorFlags.receive, play_append, hm]
        simp [VendorFlags.play, VendorFlags.misused, VendorFlags.receive]
      simp only [play_append, h1, Option.some_bind]
      exact ih
    · rw [drainLoop_cons_failure ns reply feed h]
      simp [VendorFlags.play, VendorFlags.misused, VendorFlags.receive, hv]

/-- One lifecycle call whose vendor calls succeed, made while the flags agree with the tracer
state: the vendor accepts every call of it and the flags agree with the state afterwards. -/
theorem play_apply (op : Op) (hop : op.vendorSucceeds = true) (v : VendorFlags)
    (t : XPUTracer) (hv : v.agrees t.state_ = true) :
    ∃ v', v.play (op.apply t).calls = some v' ∧ v'.agrees (op.apply t).tracer.state_ = true := by
  obtain ⟨en, rn⟩ := v
  obtain ⟨s, ns⟩ := t
  cases op with
  | prepare r =>
    simp only [Op.vendorSucceeds, decide_eq_true_eq] at hop
    subst hop
    cases s <;> cases en <;> cases rn <;> simp [VendorFlags.agrees] at hv <;>
      simp [Op.apply, PrepareTracing, XPTI_CALL_success, VendorFlags.play,
        VendorFlags.misused, VendorFlags.receive, VendorFlags.agrees]
  | start r now =>
    simp only [Op.vendorSucceeds, decide_eq_true_eq] at hop
    subst hop
    cases s <;> cases en <;> cases rn <;> simp [VendorFlags.agrees] at hv <;>
      simp [Op.apply, StartTracing, XPTI_CALL_success, VendorFlags.play,
        VendorFlags.misused, VendorFlags.receive, VendorFlags.agrees]
  | stop r1 r2 =>
    simp only [Op.vendorSucceeds, Bool.and_eq_true, decide_eq_true_eq] at hop
    obtain ⟨h1, h2⟩ := hop
    subst h1 h2
    cases s <;> cases en <;> cases rn <;> simp [VendorFlags.agrees] at hv <;>
      simp [Op.apply, StopTracing, XPTI_CALL_success, VendorFlags.play,
        VendorFlags.misused, VendorFlags.receive, VendorFlags.agrees]
  | collect r feed =>
    simp only [Op.vendorSucceeds, decide_eq_true_eq] at hop
    subst hop
    by_cases hs : s = STOPPED
    · subst hs
      have hen : en = false ∧ rn = false := by
        cases en <;> cases rn <;> simp [VendorFlags.agrees] at hv
        exact ⟨rfl, rfl⟩
      obtain ⟨rfl, rfl⟩ := hen
      refine ⟨⟨false, false⟩, ?_, rfl⟩
      have hd := play_drainLoop ⟨false, false⟩ rfl ns feed
      simp [Op.apply, CollectTraceData, XPTI_CALL_success, VendorFlags.play,
        VendorFlags.misused, VendorFlags.receive, hd]
    · refine ⟨⟨en, rn⟩, ?_, ?_⟩
      · simp [Op.apply, CollectTraceData, hs, VendorFlags.play]
      · simpa [Op.apply, CollectTraceData, hs] using hv

/-- A run of lifecycle calls whose vendor calls succeed, begun while the flags agree with the
tracer state: the vendor accepts the whole trace and the flags agree with the state at the
end. -/
theorem play_run (ops : List Op) :
    ∀ (v : VendorFlags) (t : XPUTracer), ops.all Op.vendorSucceeds = true →
      v.agrees t.state_ = true →
      ∃ v', v.play ((run ops t).flatMap Effect.calls) = some v' ∧
        v'.agrees (lastTracer t (run ops t)).state_ = true := by
  induction ops with
  | nil =>
    intro v t _ hv
    exact ⟨v, rfl, hv⟩
  | cons op ops ih =>
    intro v t hops hv
    simp only [List.all_cons, Bool.and_eq_true] at hops
    obtain ⟨v1, hp, ha⟩ := play_apply op hops.1 v t hv
    simp only [run, List.flatMap_cons, lastTracer, play_append, hp, Option.some_bind]
    by_cases hc : (op.apply t).exit.continues = true
    · rw [if_pos hc]
      exact ih v1 (op.apply t).tracer hops.2 ha
    · rw [if_neg hc]
      exact ⟨v1, rfl, ha⟩

/-- The first `n` calls of a run are the run of the first `n` calls. -/
theorem run_take (ops : List Op) :
    ∀ (n : Nat) (t : XPUTracer), run (ops.take n) t = (run ops t).take n := by
  induction ops with
  | nil =>
    intro n t
    simp [run]
  | cons op ops ih =>
    intro n t
    cases n with
    | zero => simp [run]
    | succ n =>
      simp only [List.take_succ_cons, run]
      by_cases hc : (op.apply t).exit.continues = true
      · simp only [if_pos hc, ih n]
      · simp only [if_neg hc, List.take_nil]

theorem all_take {α : Type} (p : α → Bool) (l : List α) (n : Nat) (h : l.all p = true) :
    (l.take n).all p = true := by
  rw [List.all_eq_true] at h ⊢
  intro x hx
  exact h x (List.mem_of_mem_take hx)

/-- C18. With the vendor facility modelled as two flags, both false at first, toggled by the
four lifecycle vendor calls: for every finite sequence of lifecycle calls on a fresh tracer
(calls that fail their precondition included) in which every status-returning vendor call
answers success, and for every `n`, after the first `n` calls of the run the vendor has
received no call it must never receive (enable while enabled, start while running or not
enabled, stop while not running, flush or record retrieval while running) and its flags are
the ones that go with the tracer state then (`UNINITED` and `STOPPED`: disabled, not running;
`READY`: enabled, not running; `STARTED`: enabled and running). -/
theorem C18_vendor_flags_follow_tracer_state (ops : List Op)
    (hops : ops.all Op.vendorSucceeds = true) (ns n : Nat) :
    run (ops.take n) ⟨UNINITED, ns⟩ = (run ops ⟨UNINITED, ns⟩).take n ∧
    ∃ v : VendorFlags,
      VendorFlags.play ⟨false, false⟩
        (((run ops ⟨UNINITED, ns⟩).take n).flatMap Effect.calls) = some v ∧
      v.agrees (lastTracer ⟨UNINITED, ns⟩ ((run ops ⟨UNINITED, ns⟩).take n)).state_ = true := by
  refine ⟨run_take ops n _, ?_⟩
  rw [← run_take]
  exact play_run (ops.take n) ⟨false, false⟩ ⟨UNINITED, ns⟩ (all_take _ ops n hops) rfl

/-- C18 at a run with out-of-order calls: start (refused), prepare, start, collect (refused),
stop, stop (refused), collect, prepare. After all eight calls the tracer is `READY` and the
flags are enabled, not running. -/
theorem C18_vendor_flags_follow_tracer_state_witness :
    (lastTracer ⟨UNINITED, 0⟩
      ((run [Op.start XPTI_SUCCESS 1, Op.prepare XPTI_SUCCESS, Op.start XPTI_SUCCESS 2,
          Op.collect XPTI_SUCCESS [], Op.stop XPTI_SUCCESS XPTI_SUCCESS,
          Op.stop XPTI_SUCCESS XPTI_SUCCESS,
          Op.collect XPTI_SUCCESS
            [emptyReply ⟨XPTI_EVENT_TYPE_OTHER 0, XPTIEventObject.base "none"⟩],
          Op.prepare XPTI_SUCCESS] ⟨UNINITED, 0⟩).take 8)).state_ = READY ∧
    ∃ v : VendorFlags,
      VendorFlags.play ⟨false, false⟩
        (((run [Op.start XPTI_SUCCESS 1, Op.prepare XPTI_SUCCESS, Op.start XPTI_SUCCESS 2,
          Op.collect XPTI_SUCCESS [], Op.stop XPTI_SUCCESS XPTI_SUCCESS,
          Op.stop XPTI_SUCCESS XPTI_SUCCESS,
          Op.collect XPTI_SUCCESS
            [emptyReply ⟨XPTI_EVENT_TYPE_OTHER 0, XPTIEventObject.base "none"⟩],
          Op.prepare XPTI_SUCCESS] ⟨UNINITED, 0⟩).take 8).flatMap Effect.calls) = some v ∧
      v.agrees (lastTracer ⟨UNINITED, 0⟩
        ((run [Op.start XPTI_SUCCESS 1, Op.prepare XPTI_SUCCESS, Op.start XPTI_SUCCESS 2,
          Op.collect XPTI_SUCCESS [], Op.stop XPTI_SUCCESS XPTI_SUCCESS,
          Op.stop XPTI_SUCCESS XPTI_SUCCESS,
          Op.collect XPTI_SUCCESS
            [emptyReply ⟨XPTI_EVENT_TYPE_OTHER 0, XPTIEventObject.base "none"⟩],
          Op.prepare XPTI_SUCCESS] ⟨UNINITED, 0⟩).take 8)).state_ = true :=
  ⟨rfl,
    (C18_vendor_flags_follow_tracer_state
      [Op.start XPTI_SUCCESS 1, Op.prepare XPTI_SUCCESS, Op.start XPTI_SUCCESS 2,
        Op.collect XPTI_SUCCESS [], Op.stop XPTI_SUCCESS XPTI_SUCCESS,
        Op.stop XPTI_SUCCESS XPTI_SUCCESS,
        Op.collect XPTI_SUCCESS
          [emptyReply ⟨XPTI_EVENT_TYPE_OTHER 0, XPTIEventObject.base "none"⟩],
        Op.prepare XPTI_SUCCESS] rfl 0 8).2⟩

/-- One lifecycle call in the two builds, the vendor always answering success and the feed
being empty: same ending, same tracer afterwards, and no collector call in either. -/
theorem withVendor_apply (last : XPTIEvent) (more : Nat) (q : NoXPTI.Request)
    (t : XPUTracer) :
    ((q.withVendor last more).apply t).exit = (q.apply t).exit ∧
    ((q.withVendor last more).apply t).tracer = (q.apply t).tracer ∧
    appended ((q.withVendor last more).apply t).calls = [] ∧
    appended (q.apply t).calls = [] := by
  obtain ⟨s, ns⟩ := t
  cases q with
  | prepare =>
    cases s <;>
      simp [NoXPTI.Request.withVendor, NoXPTI.Request.apply, Op.apply, PrepareTracing,
        NoXPTI.PrepareTracing, XPTI_CALL_success, appended]
  | start now =>
    cases s <;>
      simp [NoXPTI.Request.withVendor, NoXPTI.Request.apply, Op.apply, StartTracing,
        NoXPTI.StartTracing, XPTI_CALL_success, appended]
  | stop =>
    cases s <;>
      simp [NoXPTI.Request.withVendor, NoXPTI.Request.apply, Op.apply, StopTracing,
        NoXPTI.StopTracing, XPTI_CALL_success, appended]
  | collect =>
    by_cases hs : s = STOPPED
    · subst hs
      simp [NoXPTI.Request.withVendor, NoXPTI.Request.apply, Op.apply, List.replicate_succ,
        CollectTraceData_empty, NoXPTI.CollectTraceData, appended]
    · have hn := CollectTraceData_not_stopped XPTI_SUCCESS
        (List.replicate (more + 1) (emptyReply last)) ⟨s, ns⟩ hs
      simp [NoXPTI.Request.withVendor, NoXPTI.Request.apply, Op.apply, hn,
        NoXPTI.CollectTraceData, hs, appended]

/-- Runs of the two builds on the same calls. -/
theorem withVendor_run (last : XPTIEvent) (more : Nat) (qs : List NoXPTI.Request) :
    ∀ t : XPUTracer,
      observed (run (qs.map (NoXPTI.Request.withVendor last more)) t) =
        observed (NoXPTI.run qs t) ∧
      appended ((run (qs.map (NoXPTI.Request.withVendor last more)) t).flatMap
        Effect.calls) = [] ∧
      appended ((NoXPTI.run qs t).flatMap Effect.calls) = [] := by
  induction qs with
  | nil =>
    intro t
    simp [run, NoXPTI.run, observed, appended]
  | cons q qs ih =>
    intro t
    obtain ⟨h1, h2, h3, h4⟩ := withVendor_apply last more q t
    obtain ⟨i1, i2, i3⟩ := ih (q.apply t).tracer
    simp only [List.map_cons, run, NoXPTI.run, observed, List.flatMap_cons, appended_append,
      h1, h2, h3, h4, List.nil_append] at i1 ⊢
    by_cases hc : (q.apply t).exit.continues = true
    · simp only [if_pos hc]
      exact ⟨by rw [i1], i2, i3⟩
    · simp only [if_neg hc]
      simp [appended]

/-- C19. The build without the vendor facility behaves as the vendor-enabled tracer does with
a vendor that always answers success and a feed that is empty: on every sequence of lifecycle
calls and every tracer the two runs show the same sequence of endings (returns and
precondition failures) and the same tracer objects after each call; `StartTracing` without
the vendor still reads the clock and records the reading; and nothing reaches the collector
in either run. -/
theorem C19_build_without_vendor_refines (qs : List NoXPTI.Request) (t : XPUTracer)
    (last : XPTIEvent) (more : Nat) :
    observed (run (qs.map (NoXPTI.Request.withVendor last more)) t) =
      observed (NoXPTI.run qs t) ∧
    (∀ now ns, NoXPTI.StartTracing now ⟨READY, ns⟩ =
      ⟨Exit.returned, ⟨STARTED, now⟩, [Call.PosixInNsec]⟩) ∧
    (∀ now ns, (StartTracing XPTI_SUCCESS now ⟨READY, ns⟩).tracer =
      (NoXPTI.StartTracing now ⟨READY, ns⟩).tracer) ∧
    (∀ t' : XPUTracer, (NoXPTI.CollectTraceData t').calls = []) ∧
    appended ((NoXPTI.run qs t).flatMap Effect.calls) = [] ∧
    appended ((run (qs.map (NoXPTI.Request.withVendor last more)) t).flatMap
      Effect.calls) = [] := by
  obtain ⟨h1, h2, h3⟩ := withVendor_run last more qs t
  refine ⟨h1, fun _ _ => rfl, fun _ _ => rfl, ?_, h3, h2⟩
  intro t'
  unfold NoXPTI.CollectTraceData
  split <;> rfl

end paddle.platform
